import Mathlib

/-!
Verification of the host-side driver of libansnd (ansndlib.c) against its
natural-language specification.

The embedding models the C source faithfully:
 - u8/u16/u32 values are Nat bit patterns; stores of possibly-negative C
   expressions into signed 16-bit fields go through an explicit
   two's-complement conversion (s16bits); u32 arithmetic that can wrap is
   reduced modulo 2^32 (u32wrap).
 - f32 quantities (pitch, volumes, the DSP frequency constants) are modelled
   as exact rationals.  We model the HW_RVL (Wii) build, where the DSP
   frequency constants 54000000/1687.5 = 32000 and 54000000/1125 = 48000 are
   exact in f32; every concrete witness below uses values on which f32
   arithmetic is exact, so the rational model agrees with the compiled code
   at those points.  lrintf is modelled as floor(x + 1/2); it differs from
   the C runtime only on exact ties, which no statement below exercises.
 - The two C unions (parameter block offsets 0x10..0x1F and 0x37..0x3F, and
   the looping/streaming union of the voice descriptor) are modelled as
   separate field groups.  The code never reads one view of a union after
   writing the other on the same voice (the spec calls this out as a codec
   obligation), so the separated model observes the same values.
 - Function-pointer callbacks are modelled as optional opaque tokens; a
   callback invocation is recorded as an emitted (token, state) event rather
   than executed.  The streaming data-pull callback's out-parameter is
   modelled by an environment that supplies, per voice slot, the buffer
   descriptor the user callback would have written.
 - Hardware/OS effects (cache flush/invalidate, mailbox busy-wait, DMA
   programming, the tick clock) have no functional effect on the modelled
   state; mailbox sends and the DMA target are returned as outputs where a
   claim depends on them, and the tick-derived statistics fields are carried
   unchanged.
-/

section AnsndVerification

/- The Batteries rational arithmetic operations are irreducible by default;
making them locally semireducible lets concrete statements below be settled
by kernel evaluation. -/
attribute [local semireducible] Rat.mul Rat.add Rat.sub Rat.inv

/-! ## Constants from ansndlib.c and ansndlib.h (HW_RVL build) -/

def ANSND_MAX_VOICES : Nat := 48

-- Voice flags (ansndlib.c)
def VOICE_FLAG_PITCH_CHANGE : Nat := 0x2000
def VOICE_FLAG_CONFIGURED : Nat := 0x1000
def VOICE_FLAG_USED : Nat := 0x0800
def VOICE_FLAG_UPDATED : Nat := 0x0400
def VOICE_FLAG_INITIALIZED : Nat := 0x0200
def VOICE_FLAG_ERASED : Nat := 0x0100
def VOICE_FLAG_RUNNING : Nat := 0x0080
def VOICE_FLAG_FINISHED : Nat := 0x0040
def VOICE_FLAG_PAUSED : Nat := 0x0020
def VOICE_FLAG_DELAY : Nat := 0x0010
def VOICE_FLAG_STREAMING : Nat := 0x0008
def VOICE_FLAG_LOOPED : Nat := 0x0004
def VOICE_FLAG_ADPCM : Nat := 0x0002
def VOICE_FLAG_STEREO : Nat := 0x0001

-- DSP accelerator values (ansndlib.c)
def DSP_ACCL_FMT_ADPCM : Nat := 0x0000
def DSP_ACCL_FMT_SIGNED_8BIT : Nat := 0x0019
def DSP_ACCL_FMT_SIGNED_16BIT : Nat := 0x000A
def DSP_ACCL_GAIN_8BIT : Nat := 0x0100
def DSP_ACCL_GAIN_16BIT : Nat := 0x0800

-- DSP mailbox commands (ansndlib.c); a sent mail is COMMAND | value
def DSP_MAIL_COMMAND : Nat := 0xFACE0000
def DSP_MAIL_NEXT : Nat := 0x00001111
def DSP_MAIL_PREPARE : Nat := 0x00002222
def DSP_MAIL_RESTART : Nat := 0x00004444
def DSP_MAIL_YIELD : Nat := 0x00005555

-- Output samplerate modes (ansndlib.h)
def ANSND_OUTPUT_SAMPLERATE_32KHZ : Nat := 0
def ANSND_OUTPUT_SAMPLERATE_48KHZ : Nat := 1

-- DSP processing frequencies, HW_RVL: 54000000/1687.5 and 54000000/1125 (exact)
def ANSND_DSP_FREQ_32KHZ : ℚ := 32000
def ANSND_DSP_FREQ_48KHZ : ℚ := 48000
def ANSND_MAX_SAMPLERATE_32KHZ : ℚ := ANSND_DSP_FREQ_32KHZ * 4
def ANSND_MAX_SAMPLERATE_48KHZ : ℚ := ANSND_DSP_FREQ_48KHZ * 4

-- Voice states (ansndlib.h)
def ANSND_VOICE_STATE_ERROR : Int := -1
def ANSND_VOICE_STATE_STOPPED : Int := 0
def ANSND_VOICE_STATE_FINISHED : Int := 1
def ANSND_VOICE_STATE_PAUSED : Int := 2
def ANSND_VOICE_STATE_RUNNING : Int := 3
def ANSND_VOICE_STATE_ERASED : Int := 4

-- PCM voice formats (ansndlib.h)
def ANSND_VOICE_PCM_FORMAT_UNSET : Nat := 0
def ANSND_VOICE_PCM_FORMAT_SIGNED_8_PCM : Nat := 1
def ANSND_VOICE_PCM_FORMAT_SIGNED_16_PCM : Nat := 2

-- Error codes (ansndlib.h)
def ANSND_ERROR_OK : Int := 0
def ANSND_ERROR_NOT_INITIALIZED : Int := -1
def ANSND_ERROR_INVALID_CONFIGURATION : Int := -2
def ANSND_ERROR_INVALID_INPUT : Int := -3
def ANSND_ERROR_INVALID_SAMPLERATE : Int := -4
def ANSND_ERROR_INVALID_MEMORY : Int := -5
def ANSND_ERROR_ALL_VOICES_USED : Int := -6
def ANSND_ERROR_VOICE_ID_NOT_ALLOCATED : Int := -7
def ANSND_ERROR_VOICE_NOT_CONFIGURED : Int := -8
def ANSND_ERROR_VOICE_NOT_INITIALIZED : Int := -9
def ANSND_ERROR_VOICE_RUNNING : Int := -10
def ANSND_ERROR_VOICE_ALREADY_LINKED : Int := -11
def ANSND_ERROR_VOICE_NOT_LINKED : Int := -12
def ANSND_ERROR_DSP_STALLED : Int := -13

-- libogc: SYS_BASE_CACHED (HW_RVL cached-address test mask)
def SYS_BASE_CACHED : Nat := 0x80000000

-- libogc DSP task states; the driver only compares against RUN and DONE
def DSPTASK_RUN : Nat := 1
def DSPTASK_DONE : Nat := 3

/-! ## Conversion helpers (macros HIGH, LOW, SAMPLES_TO_NIBBLES of ansndlib.c) -/

/-- HIGH(x) = (u16)(((x) and 0xFFFF0000) >> 16) -/
def HIGH (x : Nat) : Nat := (x &&& 0xFFFF0000) >>> 16

/-- LOW(x) = (u16)((x) and 0x0000FFFF) -/
def LOW (x : Nat) : Nat := x &&& 0x0000FFFF

/-- SAMPLES_TO_NIBBLES(x) = (((x) / 14) * 16) + ((x) mod 14) + 2 -/
def SAMPLES_TO_NIBBLES (x : Nat) : Nat := ((x / 14) * 16) + (x % 14) + 2

/-- Reduction of a C u32 computation modulo 2^32. -/
def u32wrap (x : Nat) : Nat := x % 4294967296

/-- u32 subtraction of one, as the C expression x - 1 on a u32. -/
def u32sub1 (x : Nat) : Nat := u32wrap (x + 4294967295)

/-- Bit pattern stored when a C signed value is written to a 16-bit field. -/
def s16bits (x : Int) : Nat := (x % 65536).toNat

/-- Clear the bits of mask m in a u16 flags word: flags &= ~m. -/
def clearBits (f m : Nat) : Nat := f &&& (65535 ^^^ m)

/-- lrintf modelled as round-half-up on exact rationals; the C runtime
rounds ties to even, and no statement in this file evaluates it at a tie.
Defined through the executable Rat.floor; lrintQ_eq_round relates it to
the mathematical rounding function. -/
def lrintQ (x : ℚ) : Int := (x + 1/2).floor

/-! ## Data model: the structs of ansndlib.c, with C unions split into
separate field groups (the code never mixes the two views on one voice). -/

/-- ansnd_parameter_block_t: the coprocessor-visible 128-byte block.
All 16-bit fields are stored as Nat bit patterns.  Offsets 0x10..0x1F
(pcm.sample_buffer_2 / adpcm.decode_coefficients) are the 16-word list
region10; offsets 0x37..0x3F are the looping/streaming union, split into
the two views. -/
structure ansnd_parameter_block_t where
  sample_buffer : List Nat                  -- 0x00, 16 words
  region10 : List Nat                       -- 0x10, 16 words (pcm/adpcm union)
  right_volume : Nat                        -- 0x20 (s16 bit pattern)
  left_volume : Nat                         -- 0x21 (s16 bit pattern)
  relative_frequency_high : Nat             -- 0x22
  relative_frequency_low : Nat              -- 0x23
  count_low : Nat                           -- 0x24
  delay : Nat                               -- 0x25 (s16 bit pattern)
  flags : Nat                               -- 0x26
  sample_buffer_index : Nat                 -- 0x27
  sample_buffer_wrapping : Nat              -- 0x28
  filter_step : Nat                         -- 0x29
  filter_step_512 : Nat                     -- 0x2A
  correction_factor : Nat                   -- 0x2B (s16 bit pattern)
  accelerator_format : Nat                  -- 0x2C
  accelerator_start_high : Nat              -- 0x2D
  accelerator_start_low : Nat               -- 0x2E
  accelerator_end_high : Nat                -- 0x2F
  accelerator_end_low : Nat                 -- 0x30
  accelerator_current_high : Nat            -- 0x31
  accelerator_current_low : Nat             -- 0x32
  initial_predictor_scale : Nat             -- 0x33
  initial_sample_history_1 : Nat            -- 0x34 (s16 bit pattern)
  initial_sample_history_2 : Nat            -- 0x35 (s16 bit pattern)
  accelerator_gain : Nat                    -- 0x36
  -- looping view of the 0x37..0x3F union
  loop_start_high : Nat                     -- 0x3B
  loop_start_low : Nat                      -- 0x3C
  loop_predictor_scale : Nat                -- 0x3D
  loop_sample_history_1 : Nat               -- 0x3E (s16 bit pattern)
  loop_sample_history_2 : Nat               -- 0x3F (s16 bit pattern)
  -- streaming view of the 0x37..0x3F union
  next_buffer_start_high : Nat              -- 0x37
  next_buffer_start_low : Nat               -- 0x38
  next_buffer_end_high : Nat                -- 0x39
  next_buffer_end_low : Nat                 -- 0x3A
  next_buffer_current_high : Nat            -- 0x3B
  next_buffer_current_low : Nat             -- 0x3C
  next_buffer_predictor_scale : Nat         -- 0x3D
  next_buffer_sample_history_1 : Nat        -- 0x3E (s16 bit pattern)
  next_buffer_sample_history_2 : Nat        -- 0x3F (s16 bit pattern)
  deriving DecidableEq

/-- The all-zero parameter block (memset of the 128-byte struct). -/
def ansnd_parameter_block_t.zero : ansnd_parameter_block_t where
  sample_buffer := List.replicate 16 0
  region10 := List.replicate 16 0
  right_volume := 0
  left_volume := 0
  relative_frequency_high := 0
  relative_frequency_low := 0
  count_low := 0
  delay := 0
  flags := 0
  sample_buffer_index := 0
  sample_buffer_wrapping := 0
  filter_step := 0
  filter_step_512 := 0
  correction_factor := 0
  accelerator_format := 0
  accelerator_start_high := 0
  accelerator_start_low := 0
  accelerator_end_high := 0
  accelerator_end_low := 0
  accelerator_current_high := 0
  accelerator_current_low := 0
  initial_predictor_scale := 0
  initial_sample_history_1 := 0
  initial_sample_history_2 := 0
  accelerator_gain := 0
  loop_start_high := 0
  loop_start_low := 0
  loop_predictor_scale := 0
  loop_sample_history_1 := 0
  loop_sample_history_2 := 0
  next_buffer_start_high := 0
  next_buffer_start_low := 0
  next_buffer_end_high := 0
  next_buffer_end_low := 0
  next_buffer_current_high := 0
  next_buffer_current_low := 0
  next_buffer_predictor_scale := 0
  next_buffer_sample_history_1 := 0
  next_buffer_sample_history_2 := 0

/-- ansnd_voice_t, the host-side voice descriptor.  The looping/streaming
union is split into both views; linked_voice is the slot index of the
partner (the C code stores a pointer into the static voice array);
voice_callback is an opaque token for the state-callback function pointer;
has_parameter_block records whether the parameter_block pointer is non-NULL
(it is set, always to slot voice_id, at configuration);
has_stream_callback records a non-NULL stream_callback. -/
structure ansnd_voice_t where
  samplerate : Nat
  pitch : ℚ
  delay : Nat
  flags : Nat
  left_volume : ℚ
  right_volume : ℚ
  decode_coefficients : List Nat            -- 16 words
  accelerator_format : Nat
  accelerator_gain : Nat
  ram_buffer_start : Nat
  ram_buffer_end : Nat
  ram_buffer_first : Nat
  initial_predictor_scale : Nat
  initial_sample_history_1 : Nat
  initial_sample_history_2 : Nat
  -- looping view of the union
  loop_start : Nat
  loop_end : Nat
  loop_predictor_scale : Nat
  loop_sample_history_1 : Nat
  loop_sample_history_2 : Nat
  -- streaming view of the union
  next_buffer_start : Nat
  next_buffer_end : Nat
  next_buffer_first : Nat
  next_buffer_predictor_scale : Nat
  next_buffer_sample_history_1 : Nat
  next_buffer_sample_history_2 : Nat
  has_parameter_block : Bool
  linked_voice : Option Nat
  voice_callback : Option Nat
  has_stream_callback : Bool
  user_pointer : Nat
  deriving DecidableEq

/-- The all-zero voice descriptor (memset of ansnd_voice_t). -/
def ansnd_voice_t.zero : ansnd_voice_t where
  samplerate := 0
  pitch := 0
  delay := 0
  flags := 0
  left_volume := 0
  right_volume := 0
  decode_coefficients := List.replicate 16 0
  accelerator_format := 0
  accelerator_gain := 0
  ram_buffer_start := 0
  ram_buffer_end := 0
  ram_buffer_first := 0
  initial_predictor_scale := 0
  initial_sample_history_1 := 0
  initial_sample_history_2 := 0
  loop_start := 0
  loop_end := 0
  loop_predictor_scale := 0
  loop_sample_history_1 := 0
  loop_sample_history_2 := 0
  next_buffer_start := 0
  next_buffer_end := 0
  next_buffer_first := 0
  next_buffer_predictor_scale := 0
  next_buffer_sample_history_1 := 0
  next_buffer_sample_history_2 := 0
  has_parameter_block := false
  linked_voice := none
  voice_callback := none
  has_stream_callback := false
  user_pointer := 0

/-- The file-scope mutable globals of ansndlib.c that the claims concern.
voices and parameter_blocks are the 48-slot static arrays (the parameter
blocks live in the DSP DRAM image; a configured voice's block is the one at
its own slot index).  The tick-derived statistics are carried as opaque
counts. -/
structure AnsndState where
  library_initialized : Bool
  dsp_done_mixing : Bool
  dsp_stalled : Bool
  output_samplerate : Nat
  next_audio_buffer : Nat
  active_voices : Nat
  dsp_task_state : Nat
  dsp_task_has_next : Bool
  dsp_process_time : Nat
  total_process_time : Nat
  audio_callback : Option Nat
  audio_callback_arguments : Nat
  voices : List ansnd_voice_t
  parameter_blocks : List ansnd_parameter_block_t
  deriving DecidableEq

def getVoice (s : AnsndState) (i : Nat) : ansnd_voice_t :=
  s.voices.getD i ansnd_voice_t.zero

def setVoice (s : AnsndState) (i : Nat) (v : ansnd_voice_t) : AnsndState :=
  { s with voices := s.voices.set i v }

def getBlock (s : AnsndState) (i : Nat) : ansnd_parameter_block_t :=
  s.parameter_blocks.getD i ansnd_parameter_block_t.zero

def setBlock (s : AnsndState) (i : Nat) (b : ansnd_parameter_block_t) : AnsndState :=
  { s with parameter_blocks := s.parameter_blocks.set i b }

/-- The state right after ansnd_initialize_samplerate finishes its first
initialization with a valid rate (the memset block guarded by
library_initialized): all voices and parameter blocks zeroed, flags reset. -/
def ansnd_fresh_state (output_samplerate : Nat) : AnsndState where
  library_initialized := true
  dsp_done_mixing := false
  dsp_stalled := false
  output_samplerate := output_samplerate
  next_audio_buffer := 0
  active_voices := 0
  dsp_task_state := DSPTASK_RUN
  dsp_task_has_next := false
  dsp_process_time := 0
  total_process_time := 0
  audio_callback := none
  audio_callback_arguments := 0
  voices := List.replicate ANSND_MAX_VOICES ansnd_voice_t.zero
  parameter_blocks := List.replicate ANSND_MAX_VOICES ansnd_parameter_block_t.zero

/-! ## User-callback data buffers (ansndlib.h) and the callback environment -/

/-- ansnd_pcm_data_buffer_t: out-parameter of the PCM stream data callback. -/
structure ansnd_pcm_data_buffer_t where
  frame_data_ptr : Nat
  frame_count : Nat
  deriving DecidableEq

/-- ansnd_adpcm_data_buffer_t: out-parameter of the ADPCM stream data callback. -/
structure ansnd_adpcm_data_buffer_t where
  data_ptr : Nat
  sample_count : Nat
  predictor_scale : Nat
  sample_history_1 : Nat
  sample_history_2 : Nat
  deriving DecidableEq

/-- Environment supplying, for each voice slot, the buffer descriptor that
the user stream-data callback writes into the zero-initialized local buffer
during this synchronization cycle (the callback itself is external code). -/
structure SyncEnv where
  pcm : Nat → ansnd_pcm_data_buffer_t
  adpcm : Nat → ansnd_adpcm_data_buffer_t

/-- The environment in which every stream callback reports no data
(leaves the zeroed buffer untouched). -/
def SyncEnv.silent : SyncEnv where
  pcm := fun _ => ⟨0, 0⟩
  adpcm := fun _ => ⟨0, 0, 0, 0, 0⟩

/-! ## Frequency / delay calculator -/

/-- The dsp_frequency local selected by the switch on ansnd_output_samplerate
(1.0 in the unreachable default case). -/
def dsp_frequency_of (output_samplerate : Nat) : ℚ :=
  if output_samplerate = ANSND_OUTPUT_SAMPLERATE_32KHZ then ANSND_DSP_FREQ_32KHZ
  else if output_samplerate = ANSND_OUTPUT_SAMPLERATE_48KHZ then ANSND_DSP_FREQ_48KHZ
  else 1

/-- The u32 cast of the long returned by lrintf. -/
def u32ofInt (x : Int) : Nat := (x % 4294967296).toNat

/-- The u16 cast of the long returned by lrintf. -/
def u16ofInt (x : Int) : Nat := (x % 65536).toNat

/-- The pre-snap relative frequency of ansnd_update_voice_pitch:
lrintf(65536 * (samplerate * pitch / dsp_frequency)) cast to u32. -/
def ansnd_relative_frequency (output_samplerate : Nat) (v : ansnd_voice_t) : Nat :=
  u32ofInt (lrintQ (65536 * (((v.samplerate : ℚ) * v.pitch) / dsp_frequency_of output_samplerate)))

/-- ansnd_update_voice_pitch (ansndlib.c:281).  Pure in the parameter block;
reads the voice's samplerate and pitch and the global output samplerate. -/
def ansnd_update_voice_pitch (output_samplerate : Nat) (v : ansnd_voice_t)
    (pb : ansnd_parameter_block_t) : ansnd_parameter_block_t :=
  let dsp_frequency : ℚ := dsp_frequency_of output_samplerate
  let base_frequency : Nat := 0x00010000
  let adjusted_samplerate : ℚ := (v.samplerate : ℚ) * v.pitch
  let relative_frequency : Nat := ansnd_relative_frequency output_samplerate v
  -- funnel down samplerates that are very close to base already
  let relative_frequency : Nat :=
    if base_frequency - 0x100 < relative_frequency ∧ relative_frequency < base_frequency + 0x100
    then base_frequency else relative_frequency
  let pb := { pb with relative_frequency_high := HIGH relative_frequency,
                      relative_frequency_low := LOW relative_frequency }
  -- frequencies in (0x10001, 0x10205] keep the default filter step: the
  -- resampling coefficient table indexing buzzes there (comment in source)
  let filter_step : Nat := 504 <<< 6
  let correction_factor : Int := 32767
  let (filter_step, correction_factor) :=
    if base_frequency + 0x0205 < relative_frequency then
      let fs : Nat := u16ofInt (lrintQ ((base_frequency >>> 1 : Nat) * (dsp_frequency / adjusted_samplerate)))
      (fs, -256 * (128 - (fs >>> 8 : Nat) : Int) + 32767)
    else (filter_step, correction_factor)
  let pb := { pb with filter_step := filter_step,
                      correction_factor := s16bits correction_factor }
  let sample_buffer_size : Nat := u16ofInt (lrintQ (2048 / ((filter_step >>> 6 : Nat) : ℚ)))
  { pb with sample_buffer_wrapping := s16bits ((sample_buffer_size : Int) - 1),
            sample_buffer_index := s16bits (16 - (sample_buffer_size : Int)),
            filter_step_512 := (filter_step >>> 6) &&& 0x01FC }

/-- ansnd_update_voice_delay (ansndlib.c:329). -/
def ansnd_update_voice_delay (output_samplerate : Nat) (v : ansnd_voice_t)
    (pb : ansnd_parameter_block_t) : ansnd_voice_t × ansnd_parameter_block_t :=
  let dsp_frequency : ℚ := dsp_frequency_of output_samplerate
  let microseconds_per_cycle : Nat :=
    if output_samplerate = ANSND_OUTPUT_SAMPLERATE_32KHZ then 7500
    else if output_samplerate = ANSND_OUTPUT_SAMPLERATE_48KHZ then 5000
    else 0
  if v.delay < (0x7FFF * microseconds_per_cycle) / 240 then
    -- convert delay to output samples in 1 cycle (f32 quotient truncated on
    -- store to the s16 field)
    let pb := { pb with flags := clearBits pb.flags VOICE_FLAG_DELAY,
                        delay := s16bits ⌊((v.delay : ℚ) * dsp_frequency) / 1000000⌋ }
    let v := { v with flags := clearBits v.flags VOICE_FLAG_DELAY, delay := 0 }
    (v, pb)
  else
    ({ v with delay := v.delay - microseconds_per_cycle }, pb)

/-! ## Parameter block codec -/

/-- ansnd_initialize_voice (ansndlib.c:356): zeroes the block and performs
the full descriptor-to-block translation, then marks the voice INITIALIZED. -/
def ansnd_initialize_voice (output_samplerate : Nat) (v : ansnd_voice_t) :
    ansnd_voice_t × ansnd_parameter_block_t :=
  let pb := ansnd_parameter_block_t.zero
  let pb := ansnd_update_voice_pitch output_samplerate v pb
  let (v, pb) :=
    if v.delay ≠ 0 then
      let pb := { pb with flags := pb.flags ||| VOICE_FLAG_DELAY }
      let v := { v with flags := v.flags ||| VOICE_FLAG_DELAY }
      ansnd_update_voice_delay output_samplerate v pb
    else (v, pb)
  let pb := { pb with left_volume := s16bits (lrintQ (0x7FFF * v.left_volume)),
                      right_volume := s16bits (lrintQ (0x7FFF * v.right_volume)) }
  let mask : Nat :=
    VOICE_FLAG_USED ||| VOICE_FLAG_RUNNING ||| VOICE_FLAG_FINISHED |||
    VOICE_FLAG_PAUSED ||| VOICE_FLAG_STREAMING ||| VOICE_FLAG_LOOPED |||
    VOICE_FLAG_ADPCM ||| VOICE_FLAG_STEREO
  let pb := { pb with flags := pb.flags ||| (v.flags &&& mask) }
  let pb := { pb with accelerator_format := v.accelerator_format,
                      accelerator_gain := v.accelerator_gain,
                      accelerator_start_high := HIGH v.ram_buffer_start,
                      accelerator_start_low := LOW v.ram_buffer_start,
                      accelerator_end_high := HIGH v.ram_buffer_end,
                      accelerator_end_low := LOW v.ram_buffer_end,
                      accelerator_current_high := HIGH v.ram_buffer_first,
                      accelerator_current_low := LOW v.ram_buffer_first,
                      initial_predictor_scale := v.initial_predictor_scale,
                      initial_sample_history_1 := v.initial_sample_history_1,
                      initial_sample_history_2 := v.initial_sample_history_2 }
  let pb :=
    if v.flags &&& VOICE_FLAG_LOOPED ≠ 0 then
      { pb with flags := clearBits pb.flags VOICE_FLAG_STREAMING,
                loop_start_high := HIGH v.loop_start,
                loop_start_low := LOW v.loop_start,
                accelerator_end_high := HIGH v.loop_end,
                accelerator_end_low := LOW v.loop_end,
                loop_predictor_scale := v.loop_predictor_scale,
                loop_sample_history_1 := v.loop_sample_history_1,
                loop_sample_history_2 := v.loop_sample_history_2 }
    else pb
  let pb :=
    if v.flags &&& VOICE_FLAG_ADPCM ≠ 0 then
      { pb with region10 := v.decode_coefficients }
    else pb
  ({ v with flags := v.flags ||| VOICE_FLAG_INITIALIZED }, pb)

/-- ansnd_erase_voice (ansndlib.c:276): memsets the parameter block and the
voice descriptor.  The C code calls memset on voice->parameter_block even
when that pointer is NULL (a voice deallocated without ever being
configured); the model guards the block write with has_parameter_block,
since the stray write does not target the modelled block array. -/
def ansnd_erase_voice (v : ansnd_voice_t) (pb : ansnd_parameter_block_t) :
    ansnd_voice_t × ansnd_parameter_block_t :=
  (ansnd_voice_t.zero, if v.has_parameter_block then ansnd_parameter_block_t.zero else pb)

/-- ansnd_sync_voice (ansndlib.c:420).  Returns the updated voice and block
together with the voice-state callback events fired (callback token paired
with the reported state). -/
def ansnd_sync_voice (output_samplerate : Nat) (v : ansnd_voice_t)
    (pb : ansnd_parameter_block_t) :
    ansnd_voice_t × ansnd_parameter_block_t × List (Nat × Int) :=
  if v.flags &&& VOICE_FLAG_ERASED ≠ 0 then
    let evs := match v.voice_callback with
      | some t => [(t, ANSND_VOICE_STATE_ERASED)]
      | none => []
    let (v, pb) := ansnd_erase_voice v pb
    (v, pb, evs)
  else
    -- voice states in descending order of priority
    let voice_state : Int :=
      if v.flags &&& VOICE_FLAG_RUNNING ≠ 0 then
        if v.flags &&& VOICE_FLAG_PAUSED ≠ 0 then ANSND_VOICE_STATE_PAUSED
        else ANSND_VOICE_STATE_RUNNING
      else ANSND_VOICE_STATE_STOPPED
    let (v, pb) :=
      if v.flags &&& VOICE_FLAG_INITIALIZED = 0 then
        ansnd_initialize_voice output_samplerate v
      else (v, pb)
    let (v, pb) :=
      if v.flags &&& VOICE_FLAG_PITCH_CHANGE ≠ 0 then
        let pb := { pb with sample_buffer := List.replicate 16 0 }
        let pb :=
          if pb.flags &&& VOICE_FLAG_ADPCM = 0 then
            { pb with region10 := List.replicate 16 0 }
          else pb
        let pb := ansnd_update_voice_pitch output_samplerate v pb
        ({ v with flags := clearBits v.flags VOICE_FLAG_PITCH_CHANGE }, pb)
      else (v, pb)
    let (v, pb, voice_state) :=
      if pb.flags &&& VOICE_FLAG_FINISHED ≠ 0 then
        ({ v with flags := clearBits v.flags VOICE_FLAG_RUNNING },
         { pb with flags := clearBits pb.flags VOICE_FLAG_FINISHED },
         ANSND_VOICE_STATE_FINISHED)
      else (v, pb, voice_state)
    let flags_diff := v.flags ^^^ pb.flags
    let pb :=
      if flags_diff &&& VOICE_FLAG_RUNNING ≠ 0 then
        { pb with flags := clearBits pb.flags VOICE_FLAG_RUNNING }
      else pb
    let pb :=
      if flags_diff &&& VOICE_FLAG_PAUSED ≠ 0 then
        { pb with flags := clearBits pb.flags VOICE_FLAG_PAUSED |||
                           (v.flags &&& VOICE_FLAG_PAUSED) }
      else pb
    let (v, pb) :=
      if flags_diff &&& VOICE_FLAG_LOOPED ≠ 0 then
        let pb := { pb with flags := clearBits pb.flags VOICE_FLAG_LOOPED,
                            accelerator_end_high := HIGH v.ram_buffer_end,
                            accelerator_end_low := LOW v.ram_buffer_end }
        if v.flags &&& VOICE_FLAG_STREAMING ≠ 0 then
          ({ v with next_buffer_start := 0 },
           { pb with flags := pb.flags ||| VOICE_FLAG_STREAMING })
        else (v, pb)
      else (v, pb)
    let pb := { pb with left_volume := s16bits (lrintQ (0x7FFF * v.left_volume)),
                        right_volume := s16bits (lrintQ (0x7FFF * v.right_volume)) }
    let v := { v with flags := clearBits v.flags VOICE_FLAG_UPDATED }
    let evs := match v.voice_callback with
      | some t => [(t, voice_state)]
      | none => []
    (v, pb, evs)

/-! ## Streaming buffer exchange -/

/-- ansnd_write_stream_buffers (ansndlib.c:491): commit the staged host-side
next buffer into the device-visible exchange slot and clear the staging. -/
def ansnd_write_stream_buffers (v : ansnd_voice_t) (pb : ansnd_parameter_block_t) :
    ansnd_voice_t × ansnd_parameter_block_t :=
  let pb := { pb with next_buffer_start_high := HIGH v.next_buffer_start,
                      next_buffer_start_low := LOW v.next_buffer_start,
                      next_buffer_end_high := HIGH v.next_buffer_end,
                      next_buffer_end_low := LOW v.next_buffer_end,
                      next_buffer_current_high := HIGH v.next_buffer_first,
                      next_buffer_current_low := LOW v.next_buffer_first }
  let pb :=
    if v.flags &&& VOICE_FLAG_ADPCM ≠ 0 then
      { pb with next_buffer_predictor_scale := v.next_buffer_predictor_scale,
                next_buffer_sample_history_1 := v.next_buffer_sample_history_1,
                next_buffer_sample_history_2 := v.next_buffer_sample_history_2 }
    else pb
  ({ v with next_buffer_start := 0, next_buffer_end := 0, next_buffer_first := 0 }, pb)

/-- ansnd_fill_stream_buffers (ansndlib.c:512): pull a buffer descriptor
from the user callback (modelled by the two possible responses) and stage
it host-side; a zero pointer or length, or a cached-region address
(HW_RVL check), leaves the staging untouched. -/
def ansnd_fill_stream_buffers (pcmResp : ansnd_pcm_data_buffer_t)
    (adpcmResp : ansnd_adpcm_data_buffer_t) (v : ansnd_voice_t) : ansnd_voice_t :=
  if v.flags &&& VOICE_FLAG_ADPCM ≠ 0 then
    if adpcmResp.data_ptr = 0 ∨ adpcmResp.sample_count = 0 then v
    else if adpcmResp.data_ptr &&& SYS_BASE_CACHED ≠ 0 then v
    else
      let start := u32wrap (adpcmResp.data_ptr <<< 1)
      { v with next_buffer_start := start,
               next_buffer_end := u32wrap (start + SAMPLES_TO_NIBBLES adpcmResp.sample_count),
               next_buffer_first := u32wrap (start + SAMPLES_TO_NIBBLES 0),
               next_buffer_predictor_scale := adpcmResp.predictor_scale,
               next_buffer_sample_history_1 := adpcmResp.sample_history_1,
               next_buffer_sample_history_2 := adpcmResp.sample_history_2 }
  else
    if pcmResp.frame_data_ptr = 0 ∨ pcmResp.frame_count = 0 then v
    else if pcmResp.frame_data_ptr &&& SYS_BASE_CACHED ≠ 0 then v
    else
      let channels : Nat := if v.flags &&& VOICE_FLAG_STEREO ≠ 0 then 2 else 1
      let memory_shift : Nat := if v.accelerator_gain = DSP_ACCL_GAIN_16BIT then 1 else 0
      let start := pcmResp.frame_data_ptr >>> memory_shift
      -- the end address is offset so the accelerator overflow interrupt
      -- fires at the right time
      { v with next_buffer_start := start,
               next_buffer_end := u32sub1 (start + pcmResp.frame_count * channels),
               next_buffer_first := start }

/-- ansnd_update_stream_buffers (ansndlib.c:579): refill the host staging
when empty, then commit it only when the device-visible exchange slot reads
as empty in both halves. -/
def ansnd_update_stream_buffers (pcmResp : ansnd_pcm_data_buffer_t)
    (adpcmResp : ansnd_adpcm_data_buffer_t) (v : ansnd_voice_t)
    (pb : ansnd_parameter_block_t) : ansnd_voice_t × ansnd_parameter_block_t :=
  let v := if v.next_buffer_start = 0 then ansnd_fill_stream_buffers pcmResp adpcmResp v else v
  if pb.next_buffer_start_high = 0 ∧ pb.next_buffer_start_low = 0 then
    ansnd_write_stream_buffers v pb
  else (v, pb)

/-! ## Synchronization cycle (the DSP request callback) and the DMA callback -/

/-- The per-voice body of the loop in ansnd_dsp_request_callback
(ansndlib.c:630).  Accumulates fired callback events. -/
def ansnd_request_voice_step (env : SyncEnv)
    (acc : AnsndState × List (Nat × Int)) (i : Nat) : AnsndState × List (Nat × Int) :=
  let s0 := acc.1
  let v0 := getVoice s0 i
  let acc1 :=
    if v0.flags &&& VOICE_FLAG_UPDATED ≠ 0 ∨
       (v0.has_parameter_block ∧ (getBlock s0 i).flags &&& VOICE_FLAG_FINISHED ≠ 0) then
      let r := ansnd_sync_voice s0.output_samplerate v0 (getBlock s0 i)
      (setBlock (setVoice s0 i r.1) i r.2.1, acc.2 ++ r.2.2)
    else acc
  let s := acc1.1
  let v := getVoice s i
  if v.flags &&& VOICE_FLAG_RUNNING = 0 then acc1
  else
    let s := { s with active_voices := s.active_voices + 1 }
    let s :=
      if v.flags &&& VOICE_FLAG_STREAMING ≠ 0 ∧ v.flags &&& VOICE_FLAG_LOOPED = 0 then
        let r := ansnd_update_stream_buffers (env.pcm i) (env.adpcm i)
          (getVoice s i) (getBlock s i)
        setBlock (setVoice s i r.1) i r.2
      else s
    let s :=
      if (getVoice s i).flags &&& VOICE_FLAG_DELAY ≠ 0 then
        let r := ansnd_update_voice_delay s.output_samplerate
          (getVoice s i) (getBlock s i)
        setBlock (setVoice s i r.1) i r.2
      else s
    (s, acc1.2)

/-- ansnd_dsp_request_callback (ansndlib.c:619): the synchronization-cycle
pass.  Returns the new state, the voice-state callback events fired in slot
order, and the mail sent to the coprocessor afterwards.  Cache maintenance
and the tick clock reads have no effect on the modelled state; the global
audio post-process callback runs on the output buffer after the mail and
does not touch voice state. -/
def ansnd_dsp_request_callback (env : SyncEnv) (s : AnsndState) :
    AnsndState × List (Nat × Int) × List Nat :=
  let s := { s with dsp_done_mixing := true, dsp_stalled := false, active_voices := 0 }
  let r := (List.range ANSND_MAX_VOICES).foldl (ansnd_request_voice_step env) (s, [])
  let mails := [DSP_MAIL_COMMAND |||
    (if r.1.dsp_task_has_next then DSP_MAIL_YIELD else DSP_MAIL_PREPARE)]
  (r.1, r.2, mails)

/-- Which buffer the audio DMA is programmed with by the DMA callback. -/
inductive DmaTarget where
  | audio (index : Nat)
  | mute
  deriving DecidableEq

/-- Outcome of one run of the audio DMA interrupt callback. -/
structure DmaOutcome where
  target : DmaTarget
  mails : List Nat
  state : AnsndState
  deriving DecidableEq

/-- ansnd_audio_dma_callback (ansndlib.c:668).  When the DSP has not
finished mixing, the mute buffer is substituted, a RESTART command is
re-sent if the cycle was already marked stalled and the task is running,
and the stalled flag is set; otherwise the finished audio buffer is
queued, a NEXT command is sent to a running task, and the double buffer
flips.  (DSP_AssertTask on a queued successor task is external scheduler
state and is not modelled.) -/
def ansnd_audio_dma_callback (s : AnsndState) : DmaOutcome :=
  if !s.dsp_done_mixing then
    { target := DmaTarget.mute
      mails := if s.dsp_stalled ∧ s.dsp_task_state = DSPTASK_RUN
               then [DSP_MAIL_COMMAND ||| DSP_MAIL_RESTART] else []
      state := { s with dsp_stalled := true } }
  else
    { target := DmaTarget.audio s.next_audio_buffer
      mails := if s.dsp_task_state = DSPTASK_RUN
               then [DSP_MAIL_COMMAND ||| DSP_MAIL_NEXT] else []
      state := { s with dsp_done_mixing := false,
                        next_audio_buffer := s.next_audio_buffer ^^^ 1 } }

/-! ## Public interface: voice registry and voice operations.

Each entry point takes and returns the global state; the s32 result code is
paired with the post-state.  A NULL config pointer is unrepresentable in
the model (configs are values), and u32 voice ids make the C check
voice_id < 0 vacuous, so both appear only as comments at their check site.
The interrupt-disabled critical sections serialize each operation against
the synchronization cycle; the model makes every operation atomic. -/

/-- The max_samplerate local selected by the switch on
ansnd_output_samplerate in the configure/set-pitch validations
(1.0 in the unreachable default case). -/
def max_samplerate_of (output_samplerate : Nat) : ℚ :=
  if output_samplerate = ANSND_OUTPUT_SAMPLERATE_32KHZ then ANSND_MAX_SAMPLERATE_32KHZ
  else if output_samplerate = ANSND_OUTPUT_SAMPLERATE_48KHZ then ANSND_MAX_SAMPLERATE_48KHZ
  else 1

/-- ansnd_allocate_voice (ansndlib.c:785): first slot whose USED flag is
clear is zeroed and reserved; -1 from the scan means every slot is used. -/
def ansnd_allocate_voice (s : AnsndState) : Int × AnsndState :=
  if !s.library_initialized then (ANSND_ERROR_NOT_INITIALIZED, s)
  else
    match (List.range ANSND_MAX_VOICES).find?
        (fun i => (getVoice s i).flags &&& VOICE_FLAG_USED == 0) with
    | none => (ANSND_ERROR_ALL_VOICES_USED, s)
    | some i =>
      (Int.ofNat i, setVoice s i { ansnd_voice_t.zero with flags := VOICE_FLAG_USED })

/-- Clearing both ends of a link (the bodies of the critical sections of
ansnd_deallocate_voice and ansnd_unlink_voice): voice_id's pointer first,
then its partner's. -/
def ansnd_unlink_pair_apply (s : AnsndState) (voice_id l : Nat) : AnsndState :=
  let s := setVoice s voice_id { getVoice s voice_id with linked_voice := none }
  setVoice s l { getVoice s l with linked_voice := none }

/-- The critical section of ansnd_deallocate_voice: mark the slot UPDATED
and ERASED, then break a link if present. -/
def ansnd_deallocate_apply (s : AnsndState) (voice_id : Nat) : AnsndState :=
  let voice := getVoice s voice_id
  let linked := voice.linked_voice
  let s := setVoice s voice_id
    { voice with flags := voice.flags ||| VOICE_FLAG_UPDATED ||| VOICE_FLAG_ERASED }
  match linked with
  | none => s
  | some l => ansnd_unlink_pair_apply s voice_id l

/-- ansnd_deallocate_voice (ansndlib.c:816): marks the slot UPDATED and
ERASED (teardown happens in the next synchronization cycle) and breaks a
link if present. -/
def ansnd_deallocate_voice (s : AnsndState) (voice_id : Nat) : Int × AnsndState :=
  if !s.library_initialized then (ANSND_ERROR_NOT_INITIALIZED, s)
  else if ANSND_MAX_VOICES ≤ voice_id then (ANSND_ERROR_INVALID_INPUT, s)
  else if (getVoice s voice_id).flags &&& VOICE_FLAG_USED = 0 then
    (ANSND_ERROR_VOICE_ID_NOT_ALLOCATED, s)
  else (ANSND_ERROR_OK, ansnd_deallocate_apply s voice_id)

/-- ansnd_pcm_voice_config_t (ansndlib.h): the PCM configuration
descriptor; callbacks are modelled as an optional token and a presence
flag for the stream callback. -/
structure ansnd_pcm_voice_config_t where
  samplerate : Nat
  format : Nat
  channels : Nat
  delay : Nat
  pitch : ℚ
  left_volume : ℚ
  right_volume : ℚ
  frame_data_ptr : Nat
  frame_count : Nat
  start_offset : Nat
  loop_start_offset : Nat
  loop_end_offset : Nat
  voice_callback : Option Nat
  has_stream_callback : Bool
  user_pointer : Nat
  deriving DecidableEq

/-- The mutation block of ansnd_configure_pcm_voice (ansndlib.c:908-972),
entered after every validation has passed. -/
def ansnd_configure_pcm_apply (s : AnsndState) (voice_id : Nat)
    (cfg : ansnd_pcm_voice_config_t) : AnsndState :=
  let linked := (getVoice s voice_id).linked_voice
  -- memset to zero, then restore the saved link; the C code guards the
  -- restore with if (linked_voice), which equals the memset NULL when absent
  let v := { ansnd_voice_t.zero with linked_voice := linked }
  -- switch on format; the validated format is 1 or 2, the memset zeroes stand otherwise
  let (fmt, gain, memory_shift) :=
    if cfg.format = ANSND_VOICE_PCM_FORMAT_SIGNED_8_PCM then
      (DSP_ACCL_FMT_SIGNED_8BIT, DSP_ACCL_GAIN_8BIT, 0)
    else if cfg.format = ANSND_VOICE_PCM_FORMAT_SIGNED_16_PCM then
      (DSP_ACCL_FMT_SIGNED_16BIT, DSP_ACCL_GAIN_16BIT, 1)
    else (v.accelerator_format, v.accelerator_gain, 0)
  let v := { v with accelerator_format := fmt, accelerator_gain := gain,
                    samplerate := cfg.samplerate, pitch := cfg.pitch,
                    delay := cfg.delay }
  let v := { v with flags := v.flags ||| VOICE_FLAG_USED ||| VOICE_FLAG_UPDATED |||
                             VOICE_FLAG_CONFIGURED }
  let v := if cfg.channels = 2 then { v with flags := v.flags ||| VOICE_FLAG_STEREO } else v
  let v := { v with left_volume := cfg.left_volume, right_volume := cfg.right_volume }
  let v := { v with ram_buffer_start := cfg.frame_data_ptr >>> memory_shift }
  let v := { v with ram_buffer_end := u32sub1 (v.ram_buffer_start + cfg.frame_count * cfg.channels),
                    ram_buffer_first := u32wrap (v.ram_buffer_start + cfg.start_offset * cfg.channels) }
  let v :=
    if cfg.loop_start_offset ≠ 0 ∨ cfg.loop_end_offset ≠ 0 then
      { v with flags := v.flags ||| VOICE_FLAG_LOOPED,
               loop_start := u32wrap (v.ram_buffer_start + cfg.loop_start_offset * cfg.channels),
               loop_end := u32sub1 (v.ram_buffer_start + cfg.loop_end_offset * cfg.channels) }
    else v
  let v := { v with has_parameter_block := true,   -- parameter_block := base[voice_id]
                    voice_callback := cfg.voice_callback }
  let v :=
    if cfg.has_stream_callback then
      { v with flags := v.flags ||| VOICE_FLAG_STREAMING, has_stream_callback := true }
    else v
  setVoice s voice_id { v with user_pointer := cfg.user_pointer }

/-- ansnd_configure_pcm_voice (ansndlib.c:847): the validation chain, then
the mutation block. -/
def ansnd_configure_pcm_voice (s : AnsndState) (voice_id : Nat)
    (cfg : ansnd_pcm_voice_config_t) : Int × AnsndState :=
  if !s.library_initialized then (ANSND_ERROR_NOT_INITIALIZED, s)
  else if ANSND_MAX_VOICES ≤ voice_id then (ANSND_ERROR_INVALID_INPUT, s)
  else if (getVoice s voice_id).flags &&& VOICE_FLAG_USED = 0 then
    (ANSND_ERROR_VOICE_ID_NOT_ALLOCATED, s)
  else if (cfg.samplerate : ℚ) * cfg.pitch < 50 ∨
       max_samplerate_of s.output_samplerate < (cfg.samplerate : ℚ) * cfg.pitch then
    (ANSND_ERROR_INVALID_SAMPLERATE, s)
  else if cfg.frame_data_ptr = 0 ∨ cfg.frame_count = 0 then
      (ANSND_ERROR_INVALID_MEMORY, s)
    else if cfg.frame_data_ptr &&& SYS_BASE_CACHED ≠ 0 then
      (ANSND_ERROR_INVALID_MEMORY, s)
    else if cfg.format = ANSND_VOICE_PCM_FORMAT_UNSET ∨
            ANSND_VOICE_PCM_FORMAT_SIGNED_16_PCM < cfg.format then
      (ANSND_ERROR_INVALID_CONFIGURATION, s)
    else if cfg.channels = 0 ∨ 2 < cfg.channels then
      (ANSND_ERROR_INVALID_CONFIGURATION, s)
    else if cfg.left_volume < -1 ∨ 1 < cfg.left_volume then
      (ANSND_ERROR_INVALID_CONFIGURATION, s)
    else if cfg.right_volume < -1 ∨ 1 < cfg.right_volume then
      (ANSND_ERROR_INVALID_CONFIGURATION, s)
    else if cfg.frame_count < cfg.loop_start_offset ∨
            cfg.frame_count < cfg.loop_end_offset then
      (ANSND_ERROR_INVALID_CONFIGURATION, s)
    else (ANSND_ERROR_OK, ansnd_configure_pcm_apply s voice_id cfg)

/-- ansnd_adpcm_voice_config_t (ansndlib.h). -/
structure ansnd_adpcm_voice_config_t where
  samplerate : Nat
  loop_flag : Nat
  nibble_offsets_flag : Nat
  adpcm_format : Nat
  adpcm_gain : Nat
  delay : Nat
  pitch : ℚ
  left_volume : ℚ
  right_volume : ℚ
  data_ptr : Nat
  sample_count : Nat
  start_offset : Nat
  decode_coefficients : List Nat
  initial_predictor_scale : Nat
  initial_sample_history_1 : Nat
  initial_sample_history_2 : Nat
  loop_predictor_scale : Nat
  loop_sample_history_1 : Nat
  loop_sample_history_2 : Nat
  loop_start_offset : Nat
  loop_end_offset : Nat
  voice_callback : Option Nat
  has_stream_callback : Bool
  user_pointer : Nat
  deriving DecidableEq

/-- The start offset in nibbles computed by ansnd_configure_adpcm_voice:
taken as given when nibble_offsets_flag is set, converted from samples
otherwise. -/
def adpcm_start_offset_nibbles (cfg : ansnd_adpcm_voice_config_t) : Nat :=
  if cfg.nibble_offsets_flag ≠ 0 then cfg.start_offset
  else SAMPLES_TO_NIBBLES cfg.start_offset

/-- The loop start offset in nibbles computed by
ansnd_configure_adpcm_voice. -/
def adpcm_loop_start_offset_nibbles (cfg : ansnd_adpcm_voice_config_t) : Nat :=
  if cfg.nibble_offsets_flag ≠ 0 then cfg.loop_start_offset
  else SAMPLES_TO_NIBBLES cfg.loop_start_offset

/-- The loop end offset in nibbles computed by
ansnd_configure_adpcm_voice. -/
def adpcm_loop_end_offset_nibbles (cfg : ansnd_adpcm_voice_config_t) : Nat :=
  if cfg.nibble_offsets_flag ≠ 0 then cfg.loop_end_offset
  else SAMPLES_TO_NIBBLES cfg.loop_end_offset

/-- The mutation block of ansnd_configure_adpcm_voice (ansndlib.c:1046-1109). -/
def ansnd_configure_adpcm_apply (s : AnsndState) (voice_id : Nat)
    (cfg : ansnd_adpcm_voice_config_t)
    (start_offset_nibbles loop_start_offset_nibbles loop_end_offset_nibbles
     end_offset_nibbles : Nat) : AnsndState :=
  let linked := (getVoice s voice_id).linked_voice
  -- memset to zero, then restore the saved link (see ansnd_configure_pcm_apply)
  let v := { ansnd_voice_t.zero with linked_voice := linked }
  let v := if cfg.adpcm_format = DSP_ACCL_FMT_ADPCM then
      { v with flags := v.flags ||| VOICE_FLAG_ADPCM }
    else v
  let v := { v with accelerator_format := cfg.adpcm_format,
                    accelerator_gain := cfg.adpcm_gain,
                    samplerate := cfg.samplerate, pitch := cfg.pitch,
                    delay := cfg.delay }
  let v := { v with flags := v.flags ||| VOICE_FLAG_USED ||| VOICE_FLAG_UPDATED |||
                             VOICE_FLAG_CONFIGURED }
  let v := { v with left_volume := cfg.left_volume, right_volume := cfg.right_volume,
                    decode_coefficients := cfg.decode_coefficients }
  let v := { v with ram_buffer_start := u32wrap (cfg.data_ptr <<< 1) }
  let v := { v with ram_buffer_end := u32wrap (v.ram_buffer_start + end_offset_nibbles),
                    ram_buffer_first := u32wrap (v.ram_buffer_start + start_offset_nibbles),
                    initial_predictor_scale := cfg.initial_predictor_scale,
                    initial_sample_history_1 := cfg.initial_sample_history_1,
                    initial_sample_history_2 := cfg.initial_sample_history_2 }
  let v :=
    if cfg.loop_flag ≠ 0 then
      { v with flags := v.flags ||| VOICE_FLAG_LOOPED,
               loop_start := u32wrap (v.ram_buffer_start + loop_start_offset_nibbles),
               loop_end := u32wrap (v.ram_buffer_start + loop_end_offset_nibbles),
               loop_predictor_scale := cfg.loop_predictor_scale,
               loop_sample_history_1 := cfg.loop_sample_history_1,
               loop_sample_history_2 := cfg.loop_sample_history_2 }
    else v
  let v := { v with has_parameter_block := true,
                    voice_callback := cfg.voice_callback }
  let v :=
    if cfg.has_stream_callback then
      { v with flags := v.flags ||| VOICE_FLAG_STREAMING, has_stream_callback := true }
    else v
  setVoice s voice_id { v with user_pointer := cfg.user_pointer }

/-- ansnd_configure_adpcm_voice (ansndlib.c:977). -/
def ansnd_configure_adpcm_voice (s : AnsndState) (voice_id : Nat)
    (cfg : ansnd_adpcm_voice_config_t) : Int × AnsndState :=
  if !s.library_initialized then (ANSND_ERROR_NOT_INITIALIZED, s)
  else if ANSND_MAX_VOICES ≤ voice_id then (ANSND_ERROR_INVALID_INPUT, s)
  else if (getVoice s voice_id).flags &&& VOICE_FLAG_USED = 0 then
    (ANSND_ERROR_VOICE_ID_NOT_ALLOCATED, s)
  else if (cfg.samplerate : ℚ) * cfg.pitch < 50 ∨
       max_samplerate_of s.output_samplerate < (cfg.samplerate : ℚ) * cfg.pitch then
    (ANSND_ERROR_INVALID_SAMPLERATE, s)
  else if cfg.data_ptr = 0 ∨ cfg.sample_count = 0 then
      (ANSND_ERROR_INVALID_MEMORY, s)
    else if cfg.data_ptr &&& SYS_BASE_CACHED ≠ 0 then
      (ANSND_ERROR_INVALID_MEMORY, s)
    else if cfg.left_volume < -1 ∨ 1 < cfg.left_volume then
      (ANSND_ERROR_INVALID_CONFIGURATION, s)
    else if cfg.right_volume < -1 ∨ 1 < cfg.right_volume then
      (ANSND_ERROR_INVALID_CONFIGURATION, s)
    else if SAMPLES_TO_NIBBLES cfg.sample_count < adpcm_loop_start_offset_nibbles cfg ∨
            SAMPLES_TO_NIBBLES cfg.sample_count < adpcm_loop_end_offset_nibbles cfg then
      (ANSND_ERROR_INVALID_CONFIGURATION, s)
    else
      (ANSND_ERROR_OK, ansnd_configure_adpcm_apply s voice_id cfg
        (adpcm_start_offset_nibbles cfg) (adpcm_loop_start_offset_nibbles cfg)
        (adpcm_loop_end_offset_nibbles cfg) (SAMPLES_TO_NIBBLES cfg.sample_count))

/-- The critical section of ansnd_link_voices: point each voice at the
other. -/
def ansnd_link_apply (s : AnsndState) (voice_id_1 voice_id_2 : Nat) : AnsndState :=
  let s := setVoice s voice_id_1
    { getVoice s voice_id_1 with linked_voice := some voice_id_2 }
  setVoice s voice_id_2
    { getVoice s voice_id_2 with linked_voice := some voice_id_1 }

/-- ansnd_link_voices (ansndlib.c:1114). -/
def ansnd_link_voices (s : AnsndState) (voice_id_1 voice_id_2 : Nat) : Int × AnsndState :=
  if !s.library_initialized then (ANSND_ERROR_NOT_INITIALIZED, s)
  else if voice_id_1 = voice_id_2 then (ANSND_ERROR_INVALID_INPUT, s)
  else if ANSND_MAX_VOICES ≤ voice_id_1 then (ANSND_ERROR_INVALID_INPUT, s)
  else if (getVoice s voice_id_1).flags &&& VOICE_FLAG_USED = 0 then
    (ANSND_ERROR_VOICE_ID_NOT_ALLOCATED, s)
  else if (getVoice s voice_id_1).flags &&& VOICE_FLAG_RUNNING ≠ 0 then
    (ANSND_ERROR_VOICE_RUNNING, s)
  else if (getVoice s voice_id_1).linked_voice ≠ none then
    (ANSND_ERROR_VOICE_ALREADY_LINKED, s)
  else if ANSND_MAX_VOICES ≤ voice_id_2 then (ANSND_ERROR_INVALID_INPUT, s)
  else if (getVoice s voice_id_2).flags &&& VOICE_FLAG_USED = 0 then
    (ANSND_ERROR_VOICE_ID_NOT_ALLOCATED, s)
  else if (getVoice s voice_id_2).flags &&& VOICE_FLAG_RUNNING ≠ 0 then
    (ANSND_ERROR_VOICE_RUNNING, s)
  else if (getVoice s voice_id_2).linked_voice ≠ none then
    (ANSND_ERROR_VOICE_ALREADY_LINKED, s)
  else (ANSND_ERROR_OK, ansnd_link_apply s voice_id_1 voice_id_2)

/-- ansnd_unlink_voice (ansndlib.c:1162). -/
def ansnd_unlink_voice (s : AnsndState) (voice_id : Nat) : Int × AnsndState :=
  if !s.library_initialized then (ANSND_ERROR_NOT_INITIALIZED, s)
  else if ANSND_MAX_VOICES ≤ voice_id then (ANSND_ERROR_INVALID_INPUT, s)
  else if (getVoice s voice_id).flags &&& VOICE_FLAG_USED = 0 then
    (ANSND_ERROR_VOICE_ID_NOT_ALLOCATED, s)
  else if (getVoice s voice_id).flags &&& VOICE_FLAG_CONFIGURED = 0 then
    (ANSND_ERROR_VOICE_NOT_CONFIGURED, s)
  else
    match (getVoice s voice_id).linked_voice with
    | none => (ANSND_ERROR_VOICE_NOT_LINKED, s)
    | some l => (ANSND_ERROR_OK, ansnd_unlink_pair_apply s voice_id l)

/-- The start mutation on one voice's flags (ansndlib.c:1222-1224). -/
def ansnd_start_flags (f : Nat) : Nat :=
  clearBits (clearBits (f ||| VOICE_FLAG_UPDATED ||| VOICE_FLAG_RUNNING)
    VOICE_FLAG_PAUSED) VOICE_FLAG_INITIALIZED

/-- The critical section of ansnd_start_voice: apply the start flag
mutation to the voice and to its linked partner if present. -/
def ansnd_start_apply (s : AnsndState) (voice_id : Nat) : AnsndState :=
  let voice := getVoice s voice_id
  let linked := voice.linked_voice
  let s := setVoice s voice_id { voice with flags := ansnd_start_flags voice.flags }
  match linked with
  | none => s
  | some l =>
    setVoice s l { getVoice s l with flags := ansnd_start_flags (getVoice s l).flags }

/-- ansnd_start_voice (ansndlib.c:1194); the mutation mirrors onto a
linked partner. -/
def ansnd_start_voice (s : AnsndState) (voice_id : Nat) : Int × AnsndState :=
  if !s.library_initialized then (ANSND_ERROR_NOT_INITIALIZED, s)
  else if s.dsp_stalled then (ANSND_ERROR_DSP_STALLED, s)
  else if ANSND_MAX_VOICES ≤ voice_id then (ANSND_ERROR_INVALID_INPUT, s)
  else if (getVoice s voice_id).flags &&& VOICE_FLAG_USED = 0 then
    (ANSND_ERROR_VOICE_ID_NOT_ALLOCATED, s)
  else if (getVoice s voice_id).flags &&& VOICE_FLAG_CONFIGURED = 0 then
    (ANSND_ERROR_VOICE_NOT_CONFIGURED, s)
  else if (getVoice s voice_id).flags &&& VOICE_FLAG_STREAMING ≠ 0 ∧
          (getVoice s voice_id).flags &&& VOICE_FLAG_INITIALIZED ≠ 0 then
    (ANSND_ERROR_VOICE_NOT_CONFIGURED, s)
  else (ANSND_ERROR_OK, ansnd_start_apply s voice_id)

/-- ansnd_stop_voice (ansndlib.c:1237). -/
def ansnd_stop_voice (s : AnsndState) (voice_id : Nat) : Int × AnsndState :=
  if !s.library_initialized then (ANSND_ERROR_NOT_INITIALIZED, s)
  else if ANSND_MAX_VOICES ≤ voice_id then (ANSND_ERROR_INVALID_INPUT, s)
  else if (getVoice s voice_id).flags &&& VOICE_FLAG_USED = 0 then
    (ANSND_ERROR_VOICE_ID_NOT_ALLOCATED, s)
  else if (getVoice s voice_id).flags &&& VOICE_FLAG_CONFIGURED = 0 then
    (ANSND_ERROR_VOICE_NOT_CONFIGURED, s)
  else
    let voice := getVoice s voice_id
    let linked := voice.linked_voice
    let s := setVoice s voice_id
      { voice with flags := clearBits (voice.flags ||| VOICE_FLAG_UPDATED) VOICE_FLAG_RUNNING }
    match linked with
    | none => (ANSND_ERROR_OK, s)
    | some l =>
      (ANSND_ERROR_OK, setVoice s l { getVoice s l with
        flags := clearBits ((getVoice s l).flags ||| VOICE_FLAG_UPDATED) VOICE_FLAG_RUNNING })

/-- ansnd_pause_voice (ansndlib.c:1271). -/
def ansnd_pause_voice (s : AnsndState) (voice_id : Nat) : Int × AnsndState :=
  if !s.library_initialized then (ANSND_ERROR_NOT_INITIALIZED, s)
  else if ANSND_MAX_VOICES ≤ voice_id then (ANSND_ERROR_INVALID_INPUT, s)
  else if (getVoice s voice_id).flags &&& VOICE_FLAG_USED = 0 then
    (ANSND_ERROR_VOICE_ID_NOT_ALLOCATED, s)
  else if (getVoice s voice_id).flags &&& VOICE_FLAG_CONFIGURED = 0 then
    (ANSND_ERROR_VOICE_NOT_CONFIGURED, s)
  else
    let voice := getVoice s voice_id
    let linked := voice.linked_voice
    let s := setVoice s voice_id
      { voice with flags := voice.flags ||| VOICE_FLAG_UPDATED ||| VOICE_FLAG_PAUSED }
    match linked with
    | none => (ANSND_ERROR_OK, s)
    | some l =>
      (ANSND_ERROR_OK, setVoice s l { getVoice s l with
        flags := (getVoice s l).flags ||| VOICE_FLAG_UPDATED ||| VOICE_FLAG_PAUSED })

/-- ansnd_unpause_voice (ansndlib.c:1305). -/
def ansnd_unpause_voice (s : AnsndState) (voice_id : Nat) : Int × AnsndState :=
  if !s.library_initialized then (ANSND_ERROR_NOT_INITIALIZED, s)
  else if s.dsp_stalled then (ANSND_ERROR_DSP_STALLED, s)
  else if ANSND_MAX_VOICES ≤ voice_id then (ANSND_ERROR_INVALID_INPUT, s)
  else if (getVoice s voice_id).flags &&& VOICE_FLAG_USED = 0 then
    (ANSND_ERROR_VOICE_ID_NOT_ALLOCATED, s)
  else if (getVoice s voice_id).flags &&& VOICE_FLAG_CONFIGURED = 0 then
    (ANSND_ERROR_VOICE_NOT_CONFIGURED, s)
  else
    let voice := getVoice s voice_id
    let linked := voice.linked_voice
    let s := setVoice s voice_id
      { voice with flags := clearBits (voice.flags ||| VOICE_FLAG_UPDATED) VOICE_FLAG_PAUSED }
    match linked with
    | none => (ANSND_ERROR_OK, s)
    | some l =>
      (ANSND_ERROR_OK, setVoice s l { getVoice s l with
        flags := clearBits ((getVoice s l).flags ||| VOICE_FLAG_UPDATED) VOICE_FLAG_PAUSED })

/-- ansnd_stop_looping (ansndlib.c:1342). -/
def ansnd_stop_looping (s : AnsndState) (voice_id : Nat) : Int × AnsndState :=
  if !s.library_initialized then (ANSND_ERROR_NOT_INITIALIZED, s)
  else if ANSND_MAX_VOICES ≤ voice_id then (ANSND_ERROR_INVALID_INPUT, s)
  else if (getVoice s voice_id).flags &&& VOICE_FLAG_USED = 0 then
    (ANSND_ERROR_VOICE_ID_NOT_ALLOCATED, s)
  else if (getVoice s voice_id).flags &&& VOICE_FLAG_CONFIGURED = 0 then
    (ANSND_ERROR_VOICE_NOT_CONFIGURED, s)
  else if (getVoice s voice_id).flags &&& VOICE_FLAG_INITIALIZED = 0 then
    (ANSND_ERROR_VOICE_NOT_INITIALIZED, s)
  else
    let voice := getVoice s voice_id
    let linked := voice.linked_voice
    let s := setVoice s voice_id
      { voice with flags := clearBits (voice.flags ||| VOICE_FLAG_UPDATED) VOICE_FLAG_LOOPED }
    match linked with
    | none => (ANSND_ERROR_OK, s)
    | some l =>
      (ANSND_ERROR_OK, setVoice s l { getVoice s l with
        flags := clearBits ((getVoice s l).flags ||| VOICE_FLAG_UPDATED) VOICE_FLAG_LOOPED })

/-- ansnd_set_voice_volume (ansndlib.c:1379); volume is per-voice and does
not mirror onto a linked partner. -/
def ansnd_set_voice_volume (s : AnsndState) (voice_id : Nat)
    (left_volume right_volume : ℚ) : Int × AnsndState :=
  if !s.library_initialized then (ANSND_ERROR_NOT_INITIALIZED, s)
  else if ANSND_MAX_VOICES ≤ voice_id then (ANSND_ERROR_INVALID_INPUT, s)
  else if (getVoice s voice_id).flags &&& VOICE_FLAG_USED = 0 then
    (ANSND_ERROR_VOICE_ID_NOT_ALLOCATED, s)
  else if (getVoice s voice_id).flags &&& VOICE_FLAG_CONFIGURED = 0 then
    (ANSND_ERROR_VOICE_NOT_CONFIGURED, s)
  else if left_volume < -1 ∨ 1 < left_volume then (ANSND_ERROR_INVALID_INPUT, s)
  else if right_volume < -1 ∨ 1 < right_volume then (ANSND_ERROR_INVALID_INPUT, s)
  else
    let voice := getVoice s voice_id
    (ANSND_ERROR_OK, setVoice s voice_id
      { voice with flags := voice.flags ||| VOICE_FLAG_UPDATED,
                   left_volume := left_volume, right_volume := right_volume })

/-- ansnd_set_voice_pitch (ansndlib.c:1415); mirrors the pitch change onto
a linked partner. -/
def ansnd_set_voice_pitch (s : AnsndState) (voice_id : Nat) (pitch : ℚ) :
    Int × AnsndState :=
  if !s.library_initialized then (ANSND_ERROR_NOT_INITIALIZED, s)
  else if ANSND_MAX_VOICES ≤ voice_id then (ANSND_ERROR_INVALID_INPUT, s)
  else if (getVoice s voice_id).flags &&& VOICE_FLAG_USED = 0 then
    (ANSND_ERROR_VOICE_ID_NOT_ALLOCATED, s)
  else if (getVoice s voice_id).flags &&& VOICE_FLAG_CONFIGURED = 0 then
    (ANSND_ERROR_VOICE_NOT_CONFIGURED, s)
  else if (getVoice s voice_id).flags &&& VOICE_FLAG_RUNNING ≠ 0 then
    (ANSND_ERROR_VOICE_RUNNING, s)
  else if ((getVoice s voice_id).samplerate : ℚ) * pitch < 50 ∨
       max_samplerate_of s.output_samplerate < ((getVoice s voice_id).samplerate : ℚ) * pitch then
    (ANSND_ERROR_INVALID_SAMPLERATE, s)
  else
      let voice := getVoice s voice_id
      let linked := voice.linked_voice
      let s := setVoice s voice_id
        { voice with flags := voice.flags ||| VOICE_FLAG_UPDATED ||| VOICE_FLAG_PITCH_CHANGE,
                     pitch := pitch }
      match linked with
      | none => (ANSND_ERROR_OK, s)
      | some l =>
        (ANSND_ERROR_OK, setVoice s l { getVoice s l with
          flags := (getVoice s l).flags ||| VOICE_FLAG_UPDATED ||| VOICE_FLAG_PITCH_CHANGE,
          pitch := pitch })

/-- ansnd_get_dsp_usage_percent (ansndlib.c:1472); the out-parameter write
is a tick-scaled f32 with no effect on driver state, so only the result
code is modelled. -/
def ansnd_get_dsp_usage_percent (s : AnsndState) : Int :=
  if !s.library_initialized then ANSND_ERROR_NOT_INITIALIZED
  else if s.dsp_stalled then ANSND_ERROR_DSP_STALLED
  else ANSND_ERROR_OK

/-- ansnd_get_total_usage_percent (ansndlib.c:1493). -/
def ansnd_get_total_usage_percent (s : AnsndState) : Int :=
  if !s.library_initialized then ANSND_ERROR_NOT_INITIALIZED
  else if s.dsp_stalled then ANSND_ERROR_DSP_STALLED
  else ANSND_ERROR_OK

/-- ansnd_get_total_active_voices (ansndlib.c:1514); returns the count
through its out parameter. -/
def ansnd_get_total_active_voices (s : AnsndState) : Int × Nat :=
  if !s.library_initialized then (ANSND_ERROR_NOT_INITIALIZED, 0)
  else (ANSND_ERROR_OK, s.active_voices)

/-- ansnd_register_audio_callback (ansndlib.c:1532): installs the global
audio post-process callback and its argument unconditionally. -/
def ansnd_register_audio_callback (s : AnsndState) (callback : Option Nat)
    (callback_arguments : Nat) : Int × AnsndState :=
  (ANSND_ERROR_OK,
   { s with audio_callback := callback,
            audio_callback_arguments := callback_arguments })


/-! ## Concrete scenario data used by the claim statements below. -/

/-- A freshly initialized library in 48 kHz output mode. -/
def fresh48 : AnsndState := ansnd_fresh_state ANSND_OUTPUT_SAMPLERATE_48KHZ

/-- n successive calls to ansnd_allocate_voice, collecting the returned
codes in order. -/
def allocResults : Nat → AnsndState → List Int × AnsndState
  | 0, s => ([], s)
  | n + 1, s =>
    let (r, s1) := ansnd_allocate_voice s
    let (rs, s2) := allocResults n s1
    (r :: rs, s2)

/-- fresh48 with voice 0 allocated. -/
def oneAllocated : AnsndState := (ansnd_allocate_voice fresh48).2

/-- A valid mono signed-16 PCM configuration at the exact 48 kHz-mode
sample-rate ceiling 192000 = 4 x 48000 (pitch 1). -/
def cfgAtMax : ansnd_pcm_voice_config_t where
  samplerate := 192000
  format := ANSND_VOICE_PCM_FORMAT_SIGNED_16_PCM
  channels := 1
  delay := 0
  pitch := 1
  left_volume := 0
  right_volume := 0
  frame_data_ptr := 0x1000
  frame_count := 1
  start_offset := 0
  loop_start_offset := 0
  loop_end_offset := 0
  voice_callback := none
  has_stream_callback := false
  user_pointer := 0

/-- A configuration whose samplerate times pitch is 10, below the lower
bound 50. -/
def cfgTooSlow : ansnd_pcm_voice_config_t := { cfgAtMax with samplerate := 10 }

/-- A valid 48 kHz looping PCM configuration: 100 frames, loop region
frames 4..10. -/
def cfgLooped : ansnd_pcm_voice_config_t :=
  { cfgAtMax with samplerate := 48000, frame_data_ptr := 0x2000, frame_count := 100,
                  loop_start_offset := 4, loop_end_offset := 10 }

/-- A valid 48 kHz streaming PCM configuration (stream callback present). -/
def cfgStreaming : ansnd_pcm_voice_config_t :=
  { cfgAtMax with samplerate := 48000, frame_data_ptr := 0x2000, frame_count := 100,
                  has_stream_callback := true }

/-- The state reached by allocating voice 0, configuring it for streaming,
starting it, and letting one synchronization cycle run (all stream
callbacks report no data): its STREAMING and INITIALIZED flags are both
set. -/
def streamingStarted : AnsndState :=
  (ansnd_dsp_request_callback SyncEnv.silent
    (ansnd_start_voice (ansnd_configure_pcm_voice oneAllocated 0 cfgStreaming).2 0).2).1

/-- A voice whose samplerate times pitch is 48187.5 Hz, making the
pre-snap relative frequency in 48 kHz mode exactly 65536 + 256 (all values
exact in f32). -/
def voiceEdgeRatio : ansnd_voice_t :=
  { ansnd_voice_t.zero with samplerate := 96375, pitch := 1/2 }

/-- A voice at exactly twice the 48 kHz-mode processing frequency
(ratio 131072 = 2 in 16.16 fixed point). -/
def voiceDouble : ansnd_voice_t :=
  { ansnd_voice_t.zero with samplerate := 96000, pitch := 1 }

/-- A parameter block whose device-visible next-buffer exchange slot is
non-empty (high half non-zero). -/
def blockBusy : ansnd_parameter_block_t :=
  { ansnd_parameter_block_t.zero with next_buffer_start_high := 1 }

/-- A state with the DSP-stall flag raised, one voice configured. -/
def stalledState : AnsndState :=
  { (ansnd_configure_pcm_voice oneAllocated 0 cfgLooped).2 with
    dsp_stalled := true, dsp_done_mixing := false }

/-- An uninitialized-library state (before any ansnd_initialize call). -/
def uninitState : AnsndState := { fresh48 with library_initialized := false }

/-- An all-zero ADPCM configuration (used only to exercise calls that fail
before reading the configuration). -/
def cfgAdpcmZero : ansnd_adpcm_voice_config_t where
  samplerate := 0
  loop_flag := 0
  nibble_offsets_flag := 0
  adpcm_format := 0
  adpcm_gain := 0
  delay := 0
  pitch := 0
  left_volume := 0
  right_volume := 0
  data_ptr := 0
  sample_count := 0
  start_offset := 0
  decode_coefficients := List.replicate 16 0
  initial_predictor_scale := 0
  initial_sample_history_1 := 0
  initial_sample_history_2 := 0
  loop_predictor_scale := 0
  loop_sample_history_1 := 0
  loop_sample_history_2 := 0
  loop_start_offset := 0
  loop_end_offset := 0
  voice_callback := none
  has_stream_callback := false
  user_pointer := 0

/-- Well-formedness of the voice-link relation: the registry has its 48
slots, every link target is a valid slot index, and the relation is
symmetric (A.linked == B implies B.linked == A). -/
def linked_wf (s : AnsndState) : Prop :=
  s.voices.length = 48 ∧
  (∀ i : Fin 48, ((getVoice s i.1).linked_voice.getD 0) < 48) ∧
  (∀ i j : Fin 48, (getVoice s i.1).linked_voice = some j.1 →
     (getVoice s j.1).linked_voice = some i.1)

instance (s : AnsndState) : Decidable (linked_wf s) := by
  unfold linked_wf
  infer_instance

/-- The allocate/deallocate lifecycle property of claim C1, for a chosen
slot k: starting from a fresh library, 48 allocations return the distinct
ids 0..47; the 49th returns AllVoicesUsed; deallocating voice k marks it
USED+UPDATED+ERASED (the USED bit is not cleared, so a further allocation
still fails); after the next synchronization-cycle pass erases the slot,
exactly one more allocation succeeds (returning k) and the one after
fails again. -/
def allocationCycleProp (k : Nat) : Prop :=
  (allocResults 48 fresh48).1 = (List.range 48).map Int.ofNat ∧
  (allocResults 48 fresh48).1.Nodup ∧
  (ansnd_allocate_voice (allocResults 48 fresh48).2).1 = ANSND_ERROR_ALL_VOICES_USED ∧
  (ansnd_deallocate_voice (allocResults 48 fresh48).2 k).1 = ANSND_ERROR_OK ∧
  ((getVoice (ansnd_deallocate_voice (allocResults 48 fresh48).2 k).2 k).flags =
     VOICE_FLAG_USED ||| VOICE_FLAG_UPDATED ||| VOICE_FLAG_ERASED) ∧
  (ansnd_allocate_voice (ansnd_deallocate_voice (allocResults 48 fresh48).2 k).2).1 =
     ANSND_ERROR_ALL_VOICES_USED ∧
  (ansnd_allocate_voice
     (ansnd_dsp_request_callback SyncEnv.silent
        (ansnd_deallocate_voice (allocResults 48 fresh48).2 k).2).1).1 = Int.ofNat k ∧
  (ansnd_allocate_voice
     (ansnd_allocate_voice
        (ansnd_dsp_request_callback SyncEnv.silent
           (ansnd_deallocate_voice (allocResults 48 fresh48).2 k).2).1).2).1 =
     ANSND_ERROR_ALL_VOICES_USED

/-- A fresh 48 kHz library with voices 0 and 1 allocated (used by the
link witnesses). -/
def twoAllocated : AnsndState := (ansnd_allocate_voice (ansnd_allocate_voice fresh48).2).2

/-! ## Helper lemmas -/

set_option maxHeartbeats 1600000


theorem lrintQ_eq_round (x : ℚ) : lrintQ x = round x := by
  rw [round_eq, lrintQ, Rat.floor_def', Rat.floor_def]

theorem length_setVoice (s : AnsndState) (i : Nat) (v : ansnd_voice_t) :
    (setVoice s i v).voices.length = s.voices.length := by
  simp [setVoice]

theorem getVoice_setVoice_self (s : AnsndState) (i : Nat) (v : ansnd_voice_t)
    (h : i < s.voices.length) : getVoice (setVoice s i v) i = v := by
  simp [getVoice, setVoice, List.getD_eq_getElem?_getD, List.getElem?_set_self h]

theorem getVoice_setVoice_ne (s : AnsndState) (i j : Nat) (v : ansnd_voice_t)
    (h : i ≠ j) : getVoice (setVoice s i v) j = getVoice s j := by
  simp [getVoice, setVoice, List.getD_eq_getElem?_getD, List.getElem?_set_ne h]

theorem LOW_eq (x : Nat) : LOW x = x % 65536 := by
  have h : (0x0000FFFF : Nat) = 2 ^ 16 - 1 := by norm_num
  rw [LOW, h, Nat.and_pow_two_sub_one_eq_mod]

theorem HIGH_eq (x : Nat) : HIGH x = x / 65536 % 65536 := by
  have hm : (0xFFFF0000 : Nat) = (2 ^ 16 - 1) <<< 16 := by decide
  have hx : x / 65536 = x >>> 16 := by
    rw [Nat.shiftRight_eq_div_pow]
  have h65536 : (65536 : Nat) = 2 ^ 16 := by norm_num
  apply Nat.eq_of_testBit_eq
  intro i
  rw [HIGH, hm, hx, h65536, Nat.testBit_mod_two_pow, Nat.testBit_shiftRight,
      Nat.testBit_shiftRight, Nat.testBit_and, Nat.testBit_shiftLeft,
      Nat.testBit_two_pow_sub_one]
  have h1 : 16 + i - 16 = i := by omega
  rw [h1]
  by_cases h : i < 16 <;> simp [h]

theorem HIGH_LOW_join (x : Nat) : HIGH x * 65536 + LOW x = u32wrap x := by
  rw [HIGH_eq, LOW_eq, u32wrap]
  omega

theorem u32ofInt_lt (z : Int) : u32ofInt z < 4294967296 := by
  rw [u32ofInt]
  have h1 : (0 : Int) ≤ z % 4294967296 := Int.emod_nonneg z (by norm_num)
  have h2 : z % 4294967296 < 4294967296 := Int.emod_lt_of_pos z (by norm_num)
  omega

theorem ansnd_start_flags_running (f : Nat) :
    ansnd_start_flags f &&& VOICE_FLAG_RUNNING ≠ 0 := by
  intro h
  have h7 := congrArg (Nat.testBit · 7) h
  simp only [ansnd_start_flags, clearBits, Nat.testBit_and, Nat.testBit_or] at h7
  have e1 : VOICE_FLAG_RUNNING.testBit 7 = true := by decide
  have e2 : VOICE_FLAG_UPDATED.testBit 7 = false := by decide
  have e3 : (65535 ^^^ VOICE_FLAG_PAUSED).testBit 7 = true := by decide
  have e4 : (65535 ^^^ VOICE_FLAG_INITIALIZED).testBit 7 = true := by decide
  have e5 : Nat.testBit 0 7 = false := by decide
  rw [e1, e2, e3, e4, e5] at h7
  simp at h7

theorem request_voice_step_preserves (env : SyncEnv)
    (acc : AnsndState × List (Nat × Int)) (i : Nat) :
    (ansnd_request_voice_step env acc i).1.dsp_stalled = acc.1.dsp_stalled ∧
    (ansnd_request_voice_step env acc i).1.library_initialized = acc.1.library_initialized := by
  simp only [ansnd_request_voice_step]
  split_ifs <;> simp [setBlock, setVoice]

theorem foldl_request_step_preserves (env : SyncEnv) (l : List Nat)
    (acc : AnsndState × List (Nat × Int)) :
    (l.foldl (ansnd_request_voice_step env) acc).1.dsp_stalled = acc.1.dsp_stalled := by
  induction l generalizing acc with
  | nil => rfl
  | cons x xs ih =>
    rw [List.foldl_cons, ih, (request_voice_step_preserves env acc x).1]

/-! ## Claim theorems -/

/-- Claim C2: for a streaming voice's synchronization-cycle step, the host
writes the staged next-buffer start/end/first addresses into the voice's
parameter-block exchange slot only when the device-visible
next_buffer_start high and low halves both read as zero; while the
device-side slot is non-empty the parameter block is left entirely
untouched, so at most one pending buffer is in flight per voice at any
sync-cycle boundary.  (Quantified over every possible user-callback
response, voice state and block state.) -/
theorem stream_exchange_backpressure :
    ∀ (pcmResp : ansnd_pcm_data_buffer_t) (adpcmResp : ansnd_adpcm_data_buffer_t)
      (v : ansnd_voice_t) (pb : ansnd_parameter_block_t),
      (¬(pb.next_buffer_start_high = 0 ∧ pb.next_buffer_start_low = 0) →
        (ansnd_update_stream_buffers pcmResp adpcmResp v pb).2 = pb) ∧
      ((pb.next_buffer_start_high = 0 ∧ pb.next_buffer_start_low = 0) →
        ansnd_update_stream_buffers pcmResp adpcmResp v pb =
          ansnd_write_stream_buffers
            (if v.next_buffer_start = 0 then ansnd_fill_stream_buffers pcmResp adpcmResp v
             else v) pb) := by
  intro pcmResp adpcmResp v pb
  constructor
  · intro h
    simp only [ansnd_update_stream_buffers]
    rw [if_neg h]
  · intro h
    simp only [ansnd_update_stream_buffers]
    rw [if_pos h]

/-- Witness for C2 at a block whose exchange slot reads non-empty. -/
theorem stream_exchange_backpressure_witness :
    ¬(blockBusy.next_buffer_start_high = 0 ∧ blockBusy.next_buffer_start_low = 0) ∧
    (ansnd_update_stream_buffers ⟨0, 0⟩ ⟨0, 0, 0, 0, 0⟩ ansnd_voice_t.zero blockBusy).2 =
      blockBusy :=
  ⟨by decide,
   (stream_exchange_backpressure ⟨0, 0⟩ ⟨0, 0, 0, 0, 0⟩ ansnd_voice_t.zero blockBusy).1
     (by decide)⟩

/-- Claim C8: with the stalled flag set, ansnd_start_voice and
ansnd_unpause_voice return DspStalled and change no state; the DMA
interrupt, when the previous cycle did not complete, substitutes the
silent buffer for the frame's output, re-issues the RESTART command
exactly when the cycle was already marked stalled and the task is running,
and marks the stall; and the stall flag is cleared (recovered) only by the
DSP request callback completing a cycle. -/
theorem dsp_stall_backpressure :
    ∀ (s : AnsndState) (voice_id : Nat) (env : SyncEnv),
      (s.library_initialized = true → s.dsp_stalled = true →
        ansnd_start_voice s voice_id = (ANSND_ERROR_DSP_STALLED, s) ∧
        ansnd_unpause_voice s voice_id = (ANSND_ERROR_DSP_STALLED, s)) ∧
      (s.dsp_done_mixing = false →
        (ansnd_audio_dma_callback s).target = DmaTarget.mute ∧
        (ansnd_audio_dma_callback s).state = { s with dsp_stalled := true } ∧
        ((ansnd_audio_dma_callback s).mails = [DSP_MAIL_COMMAND ||| DSP_MAIL_RESTART] ↔
          (s.dsp_stalled = true ∧ s.dsp_task_state = DSPTASK_RUN))) ∧
      ((ansnd_dsp_request_callback env s).1.dsp_stalled = false) := by
  intro s voice_id env
  refine ⟨?_, ?_, ?_⟩
  · intro hinit hstall
    constructor
    · simp [ansnd_start_voice, hinit, hstall]
    · simp [ansnd_unpause_voice, hinit, hstall]
  · intro hdone
    refine ⟨?_, ?_, ?_⟩
    · simp [ansnd_audio_dma_callback, hdone]
    · simp [ansnd_audio_dma_callback, hdone]
    · simp only [ansnd_audio_dma_callback, hdone, Bool.not_false, if_true]
      by_cases hc : s.dsp_stalled = true ∧ s.dsp_task_state = DSPTASK_RUN
      · simp [hc]
      · simp only [hc, iff_false]
        intro hmail
        simp at hmail
  · simp only [ansnd_dsp_request_callback]
    rw [foldl_request_step_preserves]

/-- Witness for C8 at a concrete stalled state. -/
theorem dsp_stall_backpressure_witness :
    stalledState.library_initialized = true ∧ stalledState.dsp_stalled = true ∧
    ansnd_start_voice stalledState 0 = (ANSND_ERROR_DSP_STALLED, stalledState) :=
  ⟨by decide, by decide,
   ((dsp_stall_backpressure stalledState 0 SyncEnv.silent).1 (by decide) (by decide)).1⟩

/-- Claim C9: for a voice whose STREAMING and INITIALIZED flags are both
set (the state a started streaming voice reaches once the synchronization
cycle has initialized it), ansnd_start_voice returns VoiceNotConfigured
and changes nothing: a streaming voice cannot be started a second time
without being reconfigured. -/
theorem streaming_restart_rejected :
    ∀ (s : AnsndState) (voice_id : Nat),
      s.library_initialized = true → s.dsp_stalled = false → voice_id < 48 →
      (getVoice s voice_id).flags &&& VOICE_FLAG_USED ≠ 0 →
      (getVoice s voice_id).flags &&& VOICE_FLAG_CONFIGURED ≠ 0 →
      (getVoice s voice_id).flags &&& VOICE_FLAG_STREAMING ≠ 0 →
      (getVoice s voice_id).flags &&& VOICE_FLAG_INITIALIZED ≠ 0 →
      ansnd_start_voice s voice_id = (ANSND_ERROR_VOICE_NOT_CONFIGURED, s) := by
  intro s voice_id hinit hstall hid hused hconf hstream hvinit
  have hrange : ¬(ANSND_MAX_VOICES ≤ voice_id) := by
    simp only [ANSND_MAX_VOICES]
    omega
  simp [ansnd_start_voice, hinit, hstall, hrange, hused, hconf, hstream, hvinit]

set_option maxRecDepth 1000000 in
/-- Witness for C9: the state reached by configure-streaming, start, one
synchronization cycle; the second start is rejected. -/
theorem streaming_restart_rejected_witness :
    (streamingStarted.library_initialized = true ∧ streamingStarted.dsp_stalled = false ∧
     (getVoice streamingStarted 0).flags &&& VOICE_FLAG_USED ≠ 0 ∧
     (getVoice streamingStarted 0).flags &&& VOICE_FLAG_STREAMING ≠ 0 ∧
     (getVoice streamingStarted 0).flags &&& VOICE_FLAG_INITIALIZED ≠ 0) ∧
    ansnd_start_voice streamingStarted 0 = (ANSND_ERROR_VOICE_NOT_CONFIGURED, streamingStarted) :=
  ⟨⟨by decide, by decide, by decide, by decide, by decide⟩,
   streaming_restart_rejected streamingStarted 0 (by decide) (by decide) (by decide)
     (by decide) (by decide) (by decide) (by decide)⟩

/-- Claim C10: ansnd_register_audio_callback always returns Ok and installs
the callback and argument into the global callback state, even when the
library is not initialized; every other state-touching public operation
checks the initialization flag first and fails with NotInitialized on an
uninitialized library.  (ansnd_initialize_samplerate and
ansnd_uninitialize read the flag to decide whether to set up or tear down
rather than to fail.) -/
theorem register_audio_callback_unchecked :
    ∀ (s : AnsndState) (callback : Option Nat) (args : Nat),
      (ansnd_register_audio_callback s callback args =
        (ANSND_ERROR_OK,
         { s with audio_callback := callback, audio_callback_arguments := args })) ∧
      (s.library_initialized = false →
        ∀ (id id2 : Nat) (cfg : ansnd_pcm_voice_config_t)
          (acfg : ansnd_adpcm_voice_config_t) (lv rv p : ℚ),
          ansnd_allocate_voice s = (ANSND_ERROR_NOT_INITIALIZED, s) ∧
          ansnd_deallocate_voice s id = (ANSND_ERROR_NOT_INITIALIZED, s) ∧
          ansnd_configure_pcm_voice s id cfg = (ANSND_ERROR_NOT_INITIALIZED, s) ∧
          ansnd_configure_adpcm_voice s id acfg = (ANSND_ERROR_NOT_INITIALIZED, s) ∧
          ansnd_link_voices s id id2 = (ANSND_ERROR_NOT_INITIALIZED, s) ∧
          ansnd_unlink_voice s id = (ANSND_ERROR_NOT_INITIALIZED, s) ∧
          ansnd_start_voice s id = (ANSND_ERROR_NOT_INITIALIZED, s) ∧
          ansnd_stop_voice s id = (ANSND_ERROR_NOT_INITIALIZED, s) ∧
          ansnd_pause_voice s id = (ANSND_ERROR_NOT_INITIALIZED, s) ∧
          ansnd_unpause_voice s id = (ANSND_ERROR_NOT_INITIALIZED, s) ∧
          ansnd_stop_looping s id = (ANSND_ERROR_NOT_INITIALIZED, s) ∧
          ansnd_set_voice_volume s id lv rv = (ANSND_ERROR_NOT_INITIALIZED, s) ∧
          ansnd_set_voice_pitch s id p = (ANSND_ERROR_NOT_INITIALIZED, s) ∧
          ansnd_get_dsp_usage_percent s = ANSND_ERROR_NOT_INITIALIZED ∧
          ansnd_get_total_usage_percent s = ANSND_ERROR_NOT_INITIALIZED ∧
          ansnd_get_total_active_voices s = (ANSND_ERROR_NOT_INITIALIZED, 0)) := by
  intro s callback args
  constructor
  · rfl
  · intro hinit id id2 cfg acfg lv rv p
    refine ⟨?_, ?_, ?_, ?_, ?_, ?_, ?_, ?_, ?_, ?_, ?_, ?_, ?_, ?_, ?_, ?_⟩ <;>
      simp [ansnd_allocate_voice, ansnd_deallocate_voice, ansnd_configure_pcm_voice,
            ansnd_configure_adpcm_voice, ansnd_link_voices, ansnd_unlink_voice,
            ansnd_start_voice, ansnd_stop_voice, ansnd_pause_voice, ansnd_unpause_voice,
            ansnd_stop_looping, ansnd_set_voice_volume, ansnd_set_voice_pitch,
            ansnd_get_dsp_usage_percent, ansnd_get_total_usage_percent,
            ansnd_get_total_active_voices, hinit]

/-- Witness for C10: on a concrete uninitialized state, registering
installs the callback while another operation fails with NotInitialized. -/
theorem register_audio_callback_unchecked_witness :
    uninitState.library_initialized = false ∧
    (ansnd_register_audio_callback uninitState (some 7) 3 =
      (ANSND_ERROR_OK,
       { uninitState with audio_callback := some 7, audio_callback_arguments := 3 })) ∧
    ansnd_allocate_voice uninitState = (ANSND_ERROR_NOT_INITIALIZED, uninitState) :=
  ⟨by decide,
   (register_audio_callback_unchecked uninitState (some 7) 3).1,
   ((register_audio_callback_unchecked uninitState (some 7) 3).2 (by decide)
     0 0 cfgAtMax cfgAdpcmZero 0 0 0).1⟩

/-- Claim C7 counterexample: a public voice operation called with a voice
id ≥ 48 while the library is initialized that does not return
InvalidInput — ansnd_link_voices checks its first voice's allocation
before its second argument's range, so link(0, 48) on a fresh library
returns VoiceIdNotAllocated. -/
theorem invalid_voice_id_cex :
    ansnd_link_voices fresh48 0 48 = (ANSND_ERROR_VOICE_ID_NOT_ALLOCATED, fresh48) ∧
    ANSND_ERROR_VOICE_ID_NOT_ALLOCATED ≠ ANSND_ERROR_INVALID_INPUT := by
  constructor
  · decide
  · decide

set_option maxHeartbeats 1600000 in
/-- Claim C7 (amended): for every voice id ≥ 48 and initialized library,
the single-id operations return InvalidInput and mutate nothing; start
and unpause do so when the DSP is not stalled but return DspStalled
(mutating nothing) when it is; link returns InvalidInput whenever its
first id is ≥ 48, returns some error without mutating state when its
second id is ≥ 48, and InvalidInput specifically once its first voice
passes the allocation/running/link checks. -/
theorem invalid_voice_id_rejection :
    ∀ (s : AnsndState) (voice_id : Nat),
      s.library_initialized = true → 48 ≤ voice_id →
      (∀ cfg : ansnd_pcm_voice_config_t,
        ansnd_configure_pcm_voice s voice_id cfg = (ANSND_ERROR_INVALID_INPUT, s)) ∧
      (∀ acfg : ansnd_adpcm_voice_config_t,
        ansnd_configure_adpcm_voice s voice_id acfg = (ANSND_ERROR_INVALID_INPUT, s)) ∧
      ansnd_deallocate_voice s voice_id = (ANSND_ERROR_INVALID_INPUT, s) ∧
      ansnd_unlink_voice s voice_id = (ANSND_ERROR_INVALID_INPUT, s) ∧
      ansnd_stop_voice s voice_id = (ANSND_ERROR_INVALID_INPUT, s) ∧
      ansnd_pause_voice s voice_id = (ANSND_ERROR_INVALID_INPUT, s) ∧
      ansnd_stop_looping s voice_id = (ANSND_ERROR_INVALID_INPUT, s) ∧
      (∀ lv rv : ℚ,
        ansnd_set_voice_volume s voice_id lv rv = (ANSND_ERROR_INVALID_INPUT, s)) ∧
      (∀ p : ℚ, ansnd_set_voice_pitch s voice_id p = (ANSND_ERROR_INVALID_INPUT, s)) ∧
      (s.dsp_stalled = false →
        ansnd_start_voice s voice_id = (ANSND_ERROR_INVALID_INPUT, s) ∧
        ansnd_unpause_voice s voice_id = (ANSND_ERROR_INVALID_INPUT, s)) ∧
      (s.dsp_stalled = true →
        ansnd_start_voice s voice_id = (ANSND_ERROR_DSP_STALLED, s) ∧
        ansnd_unpause_voice s voice_id = (ANSND_ERROR_DSP_STALLED, s)) ∧
      (∀ b : Nat, ansnd_link_voices s voice_id b = (ANSND_ERROR_INVALID_INPUT, s)) ∧
      (∀ a : Nat,
        (ansnd_link_voices s a voice_id).2 = s ∧ (ansnd_link_voices s a voice_id).1 < 0) ∧
      (∀ a : Nat, a ≠ voice_id →
        (getVoice s a).flags &&& VOICE_FLAG_USED ≠ 0 →
        (getVoice s a).flags &&& VOICE_FLAG_RUNNING = 0 →
        (getVoice s a).linked_voice = none →
        ansnd_link_voices s a voice_id = (ANSND_ERROR_INVALID_INPUT, s)) := by
  intro s voice_id hinit h48
  refine ⟨?_, ?_, ?_, ?_, ?_, ?_, ?_, ?_, ?_, ?_, ?_, ?_, ?_, ?_⟩
  · intro cfg
    simp [ansnd_configure_pcm_voice, hinit, ANSND_MAX_VOICES, h48]
  · intro acfg
    simp [ansnd_configure_adpcm_voice, hinit, ANSND_MAX_VOICES, h48]
  · simp [ansnd_deallocate_voice, hinit, ANSND_MAX_VOICES, h48]
  · simp [ansnd_unlink_voice, hinit, ANSND_MAX_VOICES, h48]
  · simp [ansnd_stop_voice, hinit, ANSND_MAX_VOICES, h48]
  · simp [ansnd_pause_voice, hinit, ANSND_MAX_VOICES, h48]
  · simp [ansnd_stop_looping, hinit, ANSND_MAX_VOICES, h48]
  · intro lv rv
    simp [ansnd_set_voice_volume, hinit, ANSND_MAX_VOICES, h48]
  · intro p
    simp [ansnd_set_voice_pitch, hinit, ANSND_MAX_VOICES, h48]
  · intro hstall
    constructor
    · simp [ansnd_start_voice, hinit, hstall, ANSND_MAX_VOICES, h48]
    · simp [ansnd_unpause_voice, hinit, hstall, ANSND_MAX_VOICES, h48]
  · intro hstall
    constructor
    · simp [ansnd_start_voice, hinit, hstall]
    · simp [ansnd_unpause_voice, hinit, hstall]
  · intro b
    by_cases hb : voice_id = b <;>
      simp [ansnd_link_voices, hinit, hb, ANSND_MAX_VOICES, h48]
  · intro a
    have hvr : ANSND_MAX_VOICES ≤ voice_id := h48
    unfold ansnd_link_voices
    split_ifs <;>
      first
        | (refine ⟨rfl, ?_⟩
           simp [ANSND_ERROR_NOT_INITIALIZED, ANSND_ERROR_INVALID_INPUT,
                 ANSND_ERROR_VOICE_ID_NOT_ALLOCATED, ANSND_ERROR_VOICE_RUNNING,
                 ANSND_ERROR_VOICE_ALREADY_LINKED])
        | (exact absurd hvr (by assumption))
  · intro a ha hused hrun hlink
    by_cases hrange : ANSND_MAX_VOICES ≤ a <;>
      simp [ansnd_link_voices, hinit, ha, hused, hrun, hlink, hrange,
            ANSND_MAX_VOICES, h48]

/-- Witness for C7 at id 48 on a fresh initialized state. -/
theorem invalid_voice_id_rejection_witness :
    fresh48.library_initialized = true ∧ 48 ≤ 48 ∧
    ansnd_deallocate_voice fresh48 48 = (ANSND_ERROR_INVALID_INPUT, fresh48) :=
  ⟨by decide, by decide,
   (invalid_voice_id_rejection fresh48 48 (by decide) (by decide)).2.2.1⟩

/-- Claim C4 counterexample: a configuration at exactly the mode maximum
(192000 = 4 x 48000 at 48 kHz output, pitch 1) lies outside the half-open
interval [50, MaxSampleRate) claimed, yet configuring succeeds: the code
rejects only products strictly above the maximum (closed interval). -/
theorem samplerate_validation_cex :
    ¬((cfgAtMax.samplerate : ℚ) * cfgAtMax.pitch <
        max_samplerate_of oneAllocated.output_samplerate) ∧
    (ansnd_configure_pcm_voice oneAllocated 0 cfgAtMax).1 ≠ ANSND_ERROR_INVALID_SAMPLERATE ∧
    (ansnd_configure_pcm_voice oneAllocated 0 cfgAtMax).1 = ANSND_ERROR_OK := by
  refine ⟨by decide, by decide, by decide⟩

/-- Claim C4 (amended): configuring a voice (PCM or ADPCM) or setting its
pitch returns InvalidSamplerate exactly when sample_rate * pitch falls
outside the closed interval [50, MaxSampleRate(output_mode)], where
MaxSampleRate is 4 x the coprocessor processing frequency of the active
output mode; on this error the prior state is left completely unchanged. -/
theorem samplerate_validation :
    ∀ (s : AnsndState) (voice_id : Nat),
      s.library_initialized = true → voice_id < 48 →
      (getVoice s voice_id).flags &&& VOICE_FLAG_USED ≠ 0 →
      (∀ cfg : ansnd_pcm_voice_config_t,
        ((ansnd_configure_pcm_voice s voice_id cfg).1 = ANSND_ERROR_INVALID_SAMPLERATE ↔
          ((cfg.samplerate : ℚ) * cfg.pitch < 50 ∨
           max_samplerate_of s.output_samplerate < (cfg.samplerate : ℚ) * cfg.pitch)) ∧
        ((ansnd_configure_pcm_voice s voice_id cfg).1 = ANSND_ERROR_INVALID_SAMPLERATE →
          (ansnd_configure_pcm_voice s voice_id cfg).2 = s)) ∧
      (∀ acfg : ansnd_adpcm_voice_config_t,
        ((ansnd_configure_adpcm_voice s voice_id acfg).1 = ANSND_ERROR_INVALID_SAMPLERATE ↔
          ((acfg.samplerate : ℚ) * acfg.pitch < 50 ∨
           max_samplerate_of s.output_samplerate < (acfg.samplerate : ℚ) * acfg.pitch)) ∧
        ((ansnd_configure_adpcm_voice s voice_id acfg).1 = ANSND_ERROR_INVALID_SAMPLERATE →
          (ansnd_configure_adpcm_voice s voice_id acfg).2 = s)) ∧
      ((getVoice s voice_id).flags &&& VOICE_FLAG_CONFIGURED ≠ 0 →
       (getVoice s voice_id).flags &&& VOICE_FLAG_RUNNING = 0 →
       ∀ p : ℚ,
        ((ansnd_set_voice_pitch s voice_id p).1 = ANSND_ERROR_INVALID_SAMPLERATE ↔
          (((getVoice s voice_id).samplerate : ℚ) * p < 50 ∨
           max_samplerate_of s.output_samplerate <
             ((getVoice s voice_id).samplerate : ℚ) * p)) ∧
        ((ansnd_set_voice_pitch s voice_id p).1 = ANSND_ERROR_INVALID_SAMPLERATE →
          (ansnd_set_voice_pitch s voice_id p).2 = s)) := by
  intro s voice_id hinit hid hused
  have hrange : ¬(ANSND_MAX_VOICES ≤ voice_id) := by
    simp only [ANSND_MAX_VOICES]
    omega
  refine ⟨?_, ?_, ?_⟩
  · intro cfg
    simp only [ansnd_configure_pcm_voice, hinit, Bool.not_true, Bool.false_eq_true,
               if_false, hrange, hused, if_neg]
    constructor
    · constructor
      · intro h
        by_cases hc : ((cfg.samplerate : ℚ) * cfg.pitch < 50 ∨
            max_samplerate_of s.output_samplerate < (cfg.samplerate : ℚ) * cfg.pitch)
        · exact hc
        · exfalso
          rw [if_neg hc] at h
          revert h
          split_ifs <;> simp [ANSND_ERROR_INVALID_MEMORY, ANSND_ERROR_INVALID_CONFIGURATION,
            ANSND_ERROR_INVALID_SAMPLERATE, ANSND_ERROR_OK]
      · intro hc
        rw [if_pos hc]
    · intro h
      by_cases hc : ((cfg.samplerate : ℚ) * cfg.pitch < 50 ∨
          max_samplerate_of s.output_samplerate < (cfg.samplerate : ℚ) * cfg.pitch)
      · rw [if_pos hc]
      · exfalso
        rw [if_neg hc] at h
        revert h
        split_ifs <;> simp [ANSND_ERROR_INVALID_MEMORY, ANSND_ERROR_INVALID_CONFIGURATION,
          ANSND_ERROR_INVALID_SAMPLERATE, ANSND_ERROR_OK]
  · intro acfg
    simp only [ansnd_configure_adpcm_voice, hinit, Bool.not_true, Bool.false_eq_true,
               if_false, hrange, hused, if_neg]
    constructor
    · constructor
      · intro h
        by_cases hc : ((acfg.samplerate : ℚ) * acfg.pitch < 50 ∨
            max_samplerate_of s.output_samplerate < (acfg.samplerate : ℚ) * acfg.pitch)
        · exact hc
        · exfalso
          rw [if_neg hc] at h
          revert h
          split_ifs <;> simp [ANSND_ERROR_INVALID_MEMORY, ANSND_ERROR_INVALID_CONFIGURATION,
            ANSND_ERROR_INVALID_SAMPLERATE, ANSND_ERROR_OK]
      · intro hc
        rw [if_pos hc]
    · intro h
      by_cases hc : ((acfg.samplerate : ℚ) * acfg.pitch < 50 ∨
          max_samplerate_of s.output_samplerate < (acfg.samplerate : ℚ) * acfg.pitch)
      · rw [if_pos hc]
      · exfalso
        rw [if_neg hc] at h
        revert h
        split_ifs <;> simp [ANSND_ERROR_INVALID_MEMORY, ANSND_ERROR_INVALID_CONFIGURATION,
          ANSND_ERROR_INVALID_SAMPLERATE, ANSND_ERROR_OK]
  · intro hconf hrun p
    simp only [ansnd_set_voice_pitch, hinit, Bool.not_true, Bool.false_eq_true,
               if_false, hrange, hused, hconf, hrun, if_neg]
    rw [if_neg (fun hh : (0 : Nat) ≠ 0 => hh rfl)]
    constructor
    · constructor
      · intro h
        by_cases hc : (((getVoice s voice_id).samplerate : ℚ) * p < 50 ∨
            max_samplerate_of s.output_samplerate <
              ((getVoice s voice_id).samplerate : ℚ) * p)
        · exact hc
        · exfalso
          rw [if_neg hc] at h
          revert h
          cases hl : (getVoice s voice_id).linked_voice <;>
            simp [hl, ANSND_ERROR_INVALID_SAMPLERATE, ANSND_ERROR_OK]
      · intro hc
        rw [if_pos hc]
    · intro h
      by_cases hc : (((getVoice s voice_id).samplerate : ℚ) * p < 50 ∨
          max_samplerate_of s.output_samplerate <
            ((getVoice s voice_id).samplerate : ℚ) * p)
      · rw [if_pos hc]
      · exfalso
        rw [if_neg hc] at h
        revert h
        cases hl : (getVoice s voice_id).linked_voice <;>
          simp [hl, ANSND_ERROR_INVALID_SAMPLERATE, ANSND_ERROR_OK]

/-- Witness for C4 at a product of 10 (below the lower bound 50). -/
theorem samplerate_validation_witness :
    (oneAllocated.library_initialized = true ∧ (0 : Nat) < 48 ∧
     (getVoice oneAllocated 0).flags &&& VOICE_FLAG_USED ≠ 0 ∧
     (cfgTooSlow.samplerate : ℚ) * cfgTooSlow.pitch < 50) ∧
    (ansnd_configure_pcm_voice oneAllocated 0 cfgTooSlow).1 = ANSND_ERROR_INVALID_SAMPLERATE :=
  ⟨⟨by decide, by decide, by decide, by decide⟩,
   (((samplerate_validation oneAllocated 0 (by decide) (by decide) (by decide)).1
      cfgTooSlow).1).mpr (Or.inl (by decide))⟩


/-! ## Success/error characterizations of the registry operations -/

set_option maxHeartbeats 1600000 in
theorem ansnd_configure_pcm_voice_spec (s : AnsndState) (voice_id : Nat)
    (cfg : ansnd_pcm_voice_config_t) :
    (ansnd_configure_pcm_voice s voice_id cfg =
       (ANSND_ERROR_OK, ansnd_configure_pcm_apply s voice_id cfg) ∧ voice_id < 48 ∧
       (getVoice s voice_id).flags &&& VOICE_FLAG_USED ≠ 0) ∨
    ((ansnd_configure_pcm_voice s voice_id cfg).2 = s ∧
     (ansnd_configure_pcm_voice s voice_id cfg).1 ≠ ANSND_ERROR_OK) := by
  unfold ansnd_configure_pcm_voice
  split_ifs with h1 h2 h3 h4 h5 h6 h7 h8 h9 h10 h11
  all_goals try
    (refine Or.inr ⟨rfl, ?_⟩
     simp [ANSND_ERROR_NOT_INITIALIZED, ANSND_ERROR_INVALID_INPUT,
           ANSND_ERROR_VOICE_ID_NOT_ALLOCATED, ANSND_ERROR_INVALID_SAMPLERATE,
           ANSND_ERROR_INVALID_MEMORY, ANSND_ERROR_INVALID_CONFIGURATION, ANSND_ERROR_OK]
     done)
  refine Or.inl ⟨rfl, ?_, h3⟩
  simp only [ANSND_MAX_VOICES] at h2
  omega

set_option maxHeartbeats 1600000 in
theorem ansnd_configure_adpcm_voice_spec (s : AnsndState) (voice_id : Nat)
    (cfg : ansnd_adpcm_voice_config_t) :
    (ansnd_configure_adpcm_voice s voice_id cfg =
       (ANSND_ERROR_OK, ansnd_configure_adpcm_apply s voice_id cfg
         (adpcm_start_offset_nibbles cfg) (adpcm_loop_start_offset_nibbles cfg)
         (adpcm_loop_end_offset_nibbles cfg) (SAMPLES_TO_NIBBLES cfg.sample_count)) ∧
       voice_id < 48 ∧ (getVoice s voice_id).flags &&& VOICE_FLAG_USED ≠ 0) ∨
    ((ansnd_configure_adpcm_voice s voice_id cfg).2 = s ∧
     (ansnd_configure_adpcm_voice s voice_id cfg).1 ≠ ANSND_ERROR_OK) := by
  unfold ansnd_configure_adpcm_voice
  split_ifs with h1 h2 h3 h4 h5 h6 h7 h8 h9
  all_goals try
    (refine Or.inr ⟨rfl, ?_⟩
     simp [ANSND_ERROR_NOT_INITIALIZED, ANSND_ERROR_INVALID_INPUT,
           ANSND_ERROR_VOICE_ID_NOT_ALLOCATED, ANSND_ERROR_INVALID_SAMPLERATE,
           ANSND_ERROR_INVALID_MEMORY, ANSND_ERROR_INVALID_CONFIGURATION, ANSND_ERROR_OK]
     done)
  refine Or.inl ⟨rfl, ?_, h3⟩
  simp only [ANSND_MAX_VOICES] at h2
  omega

theorem ansnd_deallocate_voice_spec (s : AnsndState) (voice_id : Nat) :
    (ansnd_deallocate_voice s voice_id =
       (ANSND_ERROR_OK, ansnd_deallocate_apply s voice_id) ∧ voice_id < 48 ∧
       (getVoice s voice_id).flags &&& VOICE_FLAG_USED ≠ 0) ∨
    ((ansnd_deallocate_voice s voice_id).2 = s ∧
     (ansnd_deallocate_voice s voice_id).1 ≠ ANSND_ERROR_OK) := by
  unfold ansnd_deallocate_voice
  split_ifs with h1 h2 h3
  all_goals try
    (refine Or.inr ⟨rfl, ?_⟩
     simp [ANSND_ERROR_NOT_INITIALIZED, ANSND_ERROR_INVALID_INPUT,
           ANSND_ERROR_VOICE_ID_NOT_ALLOCATED, ANSND_ERROR_OK]
     done)
  refine Or.inl ⟨rfl, ?_, h3⟩
  simp only [ANSND_MAX_VOICES] at h2
  omega

theorem ansnd_link_voices_spec (s : AnsndState) (a b : Nat) :
    (ansnd_link_voices s a b = (ANSND_ERROR_OK, ansnd_link_apply s a b) ∧
       a ≠ b ∧ a < 48 ∧ b < 48 ∧
       (getVoice s a).flags &&& VOICE_FLAG_USED ≠ 0 ∧
       (getVoice s b).flags &&& VOICE_FLAG_USED ≠ 0 ∧
       (getVoice s a).linked_voice = none ∧ (getVoice s b).linked_voice = none) ∨
    ((ansnd_link_voices s a b).2 = s ∧ (ansnd_link_voices s a b).1 ≠ ANSND_ERROR_OK) := by
  unfold ansnd_link_voices
  split_ifs with h1 h2 h3 h4 h5 h6 h7 h8 h9 h10
  all_goals try
    (refine Or.inr ⟨rfl, ?_⟩
     simp [ANSND_ERROR_NOT_INITIALIZED, ANSND_ERROR_INVALID_INPUT,
           ANSND_ERROR_VOICE_ID_NOT_ALLOCATED, ANSND_ERROR_VOICE_RUNNING,
           ANSND_ERROR_VOICE_ALREADY_LINKED, ANSND_ERROR_OK]
     done)
  simp only [ANSND_MAX_VOICES] at h3 h7
  simp only [ne_eq, not_not] at h6 h10
  exact Or.inl ⟨rfl, h2, by omega, by omega, h4, h8, h6, h10⟩

theorem ansnd_unlink_voice_spec (s : AnsndState) (voice_id : Nat) :
    ((∃ l, (getVoice s voice_id).linked_voice = some l ∧
        ansnd_unlink_voice s voice_id = (ANSND_ERROR_OK, ansnd_unlink_pair_apply s voice_id l)) ∧
       voice_id < 48 ∧ (getVoice s voice_id).flags &&& VOICE_FLAG_USED ≠ 0) ∨
    ((ansnd_unlink_voice s voice_id).2 = s ∧
     (ansnd_unlink_voice s voice_id).1 ≠ ANSND_ERROR_OK) := by
  unfold ansnd_unlink_voice
  split_ifs with h1 h2 h3 h4
  all_goals try
    (refine Or.inr ⟨rfl, ?_⟩
     simp [ANSND_ERROR_NOT_INITIALIZED, ANSND_ERROR_INVALID_INPUT,
           ANSND_ERROR_VOICE_ID_NOT_ALLOCATED, ANSND_ERROR_VOICE_NOT_CONFIGURED,
           ANSND_ERROR_OK]
     done)
  cases hl : (getVoice s voice_id).linked_voice with
  | none =>
    refine Or.inr ⟨rfl, ?_⟩
    simp [ANSND_ERROR_VOICE_NOT_LINKED, ANSND_ERROR_OK]
  | some l =>
    refine Or.inl ⟨⟨l, rfl, rfl⟩, ?_, h3⟩
    simp only [ANSND_MAX_VOICES] at h2
    omega

theorem ansnd_start_voice_spec (s : AnsndState) (voice_id : Nat) :
    (ansnd_start_voice s voice_id = (ANSND_ERROR_OK, ansnd_start_apply s voice_id) ∧
       voice_id < 48) ∨
    ((ansnd_start_voice s voice_id).2 = s ∧
     (ansnd_start_voice s voice_id).1 ≠ ANSND_ERROR_OK) := by
  unfold ansnd_start_voice
  split_ifs with h1 h2 h3 h4 h5 h6
  all_goals try
    (refine Or.inr ⟨rfl, ?_⟩
     simp [ANSND_ERROR_NOT_INITIALIZED, ANSND_ERROR_DSP_STALLED, ANSND_ERROR_INVALID_INPUT,
           ANSND_ERROR_VOICE_ID_NOT_ALLOCATED, ANSND_ERROR_VOICE_NOT_CONFIGURED,
           ANSND_ERROR_OK]
     done)
  refine Or.inl ⟨rfl, ?_⟩
  simp only [ANSND_MAX_VOICES] at h3
  omega

/-- Claim C5 counterexample: a valid looping PCM configuration (loop end
offset 10, mono) produces a loop end bound of start + 10 - 1, not the
claimed start + 10: the code subtracts one so the accelerator overflow
interrupt fires at the loop's last frame. -/
theorem pcm_loop_offsets_cex :
    (ansnd_configure_pcm_voice oneAllocated 0 cfgLooped).1 = ANSND_ERROR_OK ∧
    ¬(cfgLooped.loop_start_offset = 0 ∧ cfgLooped.loop_end_offset = 0) ∧
    (getVoice (ansnd_configure_pcm_voice oneAllocated 0 cfgLooped).2 0).loop_end ≠
      (getVoice (ansnd_configure_pcm_voice oneAllocated 0 cfgLooped).2 0).ram_buffer_start +
        cfgLooped.loop_end_offset * cfgLooped.channels := by
  refine ⟨by decide, by decide, by decide⟩

/-- Claim C5 (amended): for every PCM configuration accepted by
ansnd_configure_pcm_voice, both loop offsets zero leaves the LOOPED flag
clear; any other pair sets LOOPED with the loop start equal to the buffer
start address plus loop_start_offset times the channel count, and the loop
end equal to the buffer start address plus loop_end_offset times the
channel count minus one (all loop arithmetic in 32-bit precision). -/
theorem pcm_loop_offsets :
    ∀ (s : AnsndState) (voice_id : Nat) (cfg : ansnd_pcm_voice_config_t),
      s.voices.length = 48 →
      (ansnd_configure_pcm_voice s voice_id cfg).1 = ANSND_ERROR_OK →
      ((cfg.loop_start_offset = 0 ∧ cfg.loop_end_offset = 0 →
        (getVoice (ansnd_configure_pcm_voice s voice_id cfg).2 voice_id).flags &&&
          VOICE_FLAG_LOOPED = 0) ∧
       (¬(cfg.loop_start_offset = 0 ∧ cfg.loop_end_offset = 0) →
        (getVoice (ansnd_configure_pcm_voice s voice_id cfg).2 voice_id).flags &&&
          VOICE_FLAG_LOOPED ≠ 0 ∧
        (getVoice (ansnd_configure_pcm_voice s voice_id cfg).2 voice_id).loop_start =
          u32wrap ((getVoice (ansnd_configure_pcm_voice s voice_id cfg).2 voice_id).ram_buffer_start +
            cfg.loop_start_offset * cfg.channels) ∧
        (getVoice (ansnd_configure_pcm_voice s voice_id cfg).2 voice_id).loop_end =
          u32sub1 ((getVoice (ansnd_configure_pcm_voice s voice_id cfg).2 voice_id).ram_buffer_start +
            cfg.loop_end_offset * cfg.channels))) := by
  intro s voice_id cfg hlen hok
  rcases ansnd_configure_pcm_voice_spec s voice_id cfg with ⟨heq, hid, _⟩ | ⟨_, hne⟩
  · rw [heq]
    have hid2 : voice_id < s.voices.length := by
      rw [hlen]
      omega
    simp only [ansnd_configure_pcm_apply]
    rw [getVoice_setVoice_self _ _ _ hid2]
    constructor
    · intro hzero
      simp only [hzero.1, hzero.2, ne_eq, not_true_eq_false, false_or, or_self, if_false]
      by_cases hc2 : cfg.channels = 2 <;> by_cases hcs : cfg.has_stream_callback <;>
        simp [hc2, hcs] <;> decide
    · intro hnz
      have hcond : cfg.loop_start_offset ≠ 0 ∨ cfg.loop_end_offset ≠ 0 := by
        by_cases ha : cfg.loop_start_offset = 0
        · right
          intro hb
          exact hnz ⟨ha, hb⟩
        · exact Or.inl ha
      rw [if_pos hcond]
      by_cases hc2 : cfg.channels = 2 <;> by_cases hcs : cfg.has_stream_callback <;>
        simp [hc2, hcs] <;> decide
  · exact absurd hok hne

/-- Witness for C5: the looping configuration of the counterexample
satisfies the amended bounds. -/
theorem pcm_loop_offsets_witness :
    (oneAllocated.voices.length = 48 ∧
     (ansnd_configure_pcm_voice oneAllocated 0 cfgLooped).1 = ANSND_ERROR_OK ∧
     ¬(cfgLooped.loop_start_offset = 0 ∧ cfgLooped.loop_end_offset = 0)) ∧
    (getVoice (ansnd_configure_pcm_voice oneAllocated 0 cfgLooped).2 0).loop_end =
      u32sub1 ((getVoice (ansnd_configure_pcm_voice oneAllocated 0 cfgLooped).2 0).ram_buffer_start +
        cfgLooped.loop_end_offset * cfgLooped.channels) :=
  ⟨⟨by decide, by decide, by decide⟩,
   ((pcm_loop_offsets oneAllocated 0 cfgLooped (by decide) (by decide)).2
     (by decide)).2.2⟩

/-- Claim C6 counterexample: at samplerate 96375 and pitch 1/2 in 48 kHz
mode (all values f32-exact) the computed relative frequency is exactly
65536 + 256 — within ±256 of unity — yet the stored ratio stays 65792
rather than being replaced by 65536: the snap window excludes its
endpoints. -/
theorem pitch_ratio_snap_cex :
    ansnd_relative_frequency ANSND_OUTPUT_SAMPLERATE_48KHZ voiceEdgeRatio = 65536 + 256 ∧
    ((ansnd_update_voice_pitch ANSND_OUTPUT_SAMPLERATE_48KHZ voiceEdgeRatio
        ansnd_parameter_block_t.zero).relative_frequency_high * 65536 +
     (ansnd_update_voice_pitch ANSND_OUTPUT_SAMPLERATE_48KHZ voiceEdgeRatio
        ansnd_parameter_block_t.zero).relative_frequency_low = 65536 + 256) := by
  refine ⟨by decide, by decide⟩

/-- Claim C6 (amended): the computed relative frequency ratio equals
round(65536 x samplerate x pitch / output_frequency) as a 16.16 value
(cast to u32); ratios strictly within ±256 of 65536 — differing by at
most 255 — are replaced by exactly 65536, selecting the non-resampling
path; and a ratio of exactly 131072 (samplerate x pitch equal to twice
the processing frequency) selects the resampling path with filter step
16384, half the unity-equivalent step 32768, i.e. a passband halved for
2x downsampling. -/
theorem pitch_ratio_spec :
    ∀ (rate : Nat) (v : ansnd_voice_t) (pb : ansnd_parameter_block_t),
      (ansnd_relative_frequency rate v =
        u32ofInt (round (65536 * (((v.samplerate : ℚ) * v.pitch) / dsp_frequency_of rate)))) ∧
      ((ansnd_update_voice_pitch rate v pb).relative_frequency_high * 65536 +
         (ansnd_update_voice_pitch rate v pb).relative_frequency_low =
        (if 65536 - 256 < ansnd_relative_frequency rate v ∧
            ansnd_relative_frequency rate v < 65536 + 256
         then 65536 else ansnd_relative_frequency rate v)) ∧
      ((v.samplerate : ℚ) * v.pitch = 2 * dsp_frequency_of rate →
        0 < dsp_frequency_of rate →
        ansnd_relative_frequency rate v = 131072 ∧
        (ansnd_update_voice_pitch rate v pb).relative_frequency_high * 65536 +
          (ansnd_update_voice_pitch rate v pb).relative_frequency_low = 131072 ∧
        (ansnd_update_voice_pitch rate v pb).filter_step = 16384) := by
  intro rate v pb
  have hlt : ansnd_relative_frequency rate v < 4294967296 := u32ofInt_lt _
  have hb : (ansnd_update_voice_pitch rate v pb).relative_frequency_high * 65536 +
      (ansnd_update_voice_pitch rate v pb).relative_frequency_low =
      (if 65536 - 256 < ansnd_relative_frequency rate v ∧
          ansnd_relative_frequency rate v < 65536 + 256
       then 65536 else ansnd_relative_frequency rate v) := by
    simp only [ansnd_update_voice_pitch]
    rw [HIGH_LOW_join]
    by_cases hc : 65536 - 256 < ansnd_relative_frequency rate v ∧
        ansnd_relative_frequency rate v < 65536 + 256
    · rw [if_pos hc]
      decide
    · rw [if_neg hc]
      exact Nat.mod_eq_of_lt hlt
  refine ⟨?_, hb, ?_⟩
  · simp only [ansnd_relative_frequency, lrintQ_eq_round]
  · intro h2x hfreq
    have hdiv : ((v.samplerate : ℚ) * v.pitch) / dsp_frequency_of rate = 2 := by
      rw [h2x]
      exact mul_div_cancel_right₀ 2 hfreq.ne'
    have hF : ansnd_relative_frequency rate v = 131072 := by
      unfold ansnd_relative_frequency
      rw [hdiv]
      decide
    refine ⟨hF, ?_, ?_⟩
    · rw [hb, hF]
      decide
    · have hhalf : dsp_frequency_of rate / ((v.samplerate : ℚ) * v.pitch) = 1 / 2 := by
        rw [h2x]
        rw [eq_div_iff (by norm_num : (2 : ℚ) ≠ 0)]
        field_simp
        ring
      simp only [ansnd_update_voice_pitch, hF, hhalf]
      norm_num
      decide

/-- Witness for C6 at exactly twice the 48 kHz processing frequency. -/
theorem pitch_ratio_spec_witness :
    ((voiceDouble.samplerate : ℚ) * voiceDouble.pitch =
       2 * dsp_frequency_of ANSND_OUTPUT_SAMPLERATE_48KHZ ∧
     (0 : ℚ) < dsp_frequency_of ANSND_OUTPUT_SAMPLERATE_48KHZ) ∧
    (ansnd_update_voice_pitch ANSND_OUTPUT_SAMPLERATE_48KHZ voiceDouble
       ansnd_parameter_block_t.zero).filter_step = 16384 :=
  ⟨⟨by decide, by decide⟩,
   ((pitch_ratio_spec ANSND_OUTPUT_SAMPLERATE_48KHZ voiceDouble
       ansnd_parameter_block_t.zero).2.2 (by decide) (by decide)).2.2⟩

set_option maxRecDepth 4000000 in
/-- Claim C1: from a freshly initialized library, 48 allocations succeed
with distinct ids, the 49th returns AllVoicesUsed; deallocation marks the
slot ERASED + UPDATED without clearing it, teardown is deferred to the
next synchronization-cycle pass, after which exactly one more allocation
succeeds. -/
theorem allocate_deallocate_cycle : ∀ k, k < 48 → allocationCycleProp k := by
  unfold allocationCycleProp
  decide

set_option maxRecDepth 4000000 in
/-- Witness for C1 at slot 0. -/
theorem allocate_deallocate_cycle_witness : 0 < 48 ∧ allocationCycleProp 0 :=
  ⟨by decide, allocate_deallocate_cycle 0 (by decide)⟩

/-! ## Link-relation well-formedness lemmas -/

theorem getVoice_setVoice_linked_eq (s : AnsndState) (a : Nat) (v : ansnd_voice_t)
    (hv : v.linked_voice = (getVoice s a).linked_voice) :
    ∀ j, (getVoice (setVoice s a v) j).linked_voice = (getVoice s j).linked_voice := by
  intro j
  by_cases hja : a = j
  · subst hja
    by_cases ha : a < s.voices.length
    · rw [getVoice_setVoice_self _ _ _ ha, hv]
    · have hset : (setVoice s a v).voices = s.voices := by
        simp only [setVoice]
        exact List.set_eq_of_length_le (by omega)
      simp only [getVoice, hset]
  · rw [getVoice_setVoice_ne _ _ _ _ hja]

theorem linked_wf_of_linked_pointwise (s t : AnsndState)
    (hlen : t.voices.length = s.voices.length)
    (hpt : ∀ j, (getVoice t j).linked_voice = (getVoice s j).linked_voice)
    (h : linked_wf s) : linked_wf t := by
  obtain ⟨h1, h2, h3⟩ := h
  refine ⟨by rw [hlen]; exact h1, ?_, ?_⟩
  · intro i
    rw [hpt]
    exact h2 i
  · intro i j hij
    rw [hpt] at hij
    rw [hpt]
    exact h3 i j hij

theorem lt_length_of_used (s : AnsndState) (a : Nat)
    (h : (getVoice s a).flags &&& VOICE_FLAG_USED ≠ 0) : a < s.voices.length := by
  by_contra hcon
  push_neg at hcon
  rw [getVoice, List.getD_eq_default _ _ hcon] at h
  exact h (by decide)

theorem link_apply_linked (s : AnsndState) (a b : Nat)
    (ha : a < s.voices.length) (hb : b < s.voices.length) :
    ∀ j, (getVoice (ansnd_link_apply s a b) j).linked_voice =
      if j = b then some a else if j = a then some b
      else (getVoice s j).linked_voice := by
  intro j
  have hb2 : b < (setVoice s a { getVoice s a with linked_voice := some b }).voices.length := by
    rw [length_setVoice]
    exact hb
  simp only [ansnd_link_apply]
  by_cases hjb : j = b
  · subst hjb
    rw [if_pos rfl, getVoice_setVoice_self _ _ _ hb2]
  · rw [if_neg hjb, getVoice_setVoice_ne _ _ _ _ (Ne.symm hjb)]
    by_cases hja : j = a
    · subst hja
      rw [if_pos rfl, getVoice_setVoice_self _ _ _ ha]
    · rw [if_neg hja, getVoice_setVoice_ne _ _ _ _ (Ne.symm hja)]

theorem unlink_pair_apply_linked (s : AnsndState) (a l : Nat)
    (ha : a < s.voices.length) :
    ∀ j, (getVoice (ansnd_unlink_pair_apply s a l) j).linked_voice =
      if j = l then none else if j = a then none
      else (getVoice s j).linked_voice := by
  intro j
  have oob : ∀ (t : AnsndState) (w : ansnd_voice_t), t.voices.length ≤ j →
      getVoice (setVoice t j w) j = getVoice t j := by
    intro t w hle
    simp only [getVoice, setVoice]
    rw [List.set_eq_of_length_le hle]
  simp only [ansnd_unlink_pair_apply]
  by_cases hjl : j = l
  · subst hjl
    by_cases hl : j < s.voices.length
    · have hl1 : j < (setVoice s a { getVoice s a with linked_voice := none }).voices.length := by
        rw [length_setVoice]
        exact hl
      rw [if_pos rfl, getVoice_setVoice_self _ _ _ hl1]
    · have hjlen : s.voices.length ≤ j := by omega
      have haj : a ≠ j := by omega
      rw [if_pos rfl, oob _ _ (by rw [length_setVoice]; exact hjlen),
          getVoice_setVoice_ne _ _ _ _ haj, getVoice, List.getD_eq_default _ _ hjlen]
      rfl
  · rw [if_neg hjl, getVoice_setVoice_ne _ _ _ _ (Ne.symm hjl)]
    by_cases hja : j = a
    · subst hja
      rw [if_pos rfl, getVoice_setVoice_self _ _ _ ha]
    · rw [if_neg hja, getVoice_setVoice_ne _ _ _ _ (Ne.symm hja)]

theorem linked_wf_link_apply (s : AnsndState) (a b : Nat) (h : linked_wf s)
    (ha : a < 48) (hb : b < 48) (hab : a ≠ b)
    (la : (getVoice s a).linked_voice = none)
    (lb : (getVoice s b).linked_voice = none) :
    linked_wf (ansnd_link_apply s a b) := by
  obtain ⟨hlen, hrange, hsymm⟩ := h
  have ha' : a < s.voices.length := by omega
  have hb' : b < s.voices.length := by omega
  have hget := link_apply_linked s a b ha' hb'
  refine ⟨?_, ?_, ?_⟩
  · simp only [ansnd_link_apply, length_setVoice]
    exact hlen
  · intro i
    rw [hget]
    by_cases hib : i.1 = b
    · simp only [hib, if_pos rfl, Option.getD_some]
      exact ha
    · rw [if_neg hib]
      by_cases hia : i.1 = a
      · simp only [hia, if_pos rfl, Option.getD_some]
        exact hb
      · rw [if_neg hia]
        exact hrange i
  · intro i j hij
    rw [hget] at hij
    rw [hget]
    by_cases hib : i.1 = b
    · rw [if_pos hib] at hij
      have hj : j.1 = a := (Option.some_injective _ hij).symm
      rw [if_neg (by rw [hj]; exact hab), if_pos hj, hib]
    · rw [if_neg hib] at hij
      by_cases hia : i.1 = a
      · rw [if_pos hia] at hij
        have hj : j.1 = b := (Option.some_injective _ hij).symm
        rw [if_pos hj, hia]
      · rw [if_neg hia] at hij
        have hjb : j.1 ≠ b := by
          intro hjb
          rw [hjb] at hij
          have h2 := hsymm i ⟨b, hb⟩ hij
          rw [lb] at h2
          exact Option.noConfusion h2
        have hja : j.1 ≠ a := by
          intro hja
          rw [hja] at hij
          have h2 := hsymm i ⟨a, ha⟩ hij
          rw [la] at h2
          exact Option.noConfusion h2
        rw [if_neg hjb, if_neg hja]
        exact hsymm i j hij

theorem linked_wf_unlink_pair (s : AnsndState) (a l : Nat) (h : linked_wf s)
    (ha : a < 48) (hl : (getVoice s a).linked_voice = some l) :
    linked_wf (ansnd_unlink_pair_apply s a l) := by
  obtain ⟨hlen, hrange, hsymm⟩ := h
  have ha' : a < s.voices.length := by omega
  have hl48 : l < 48 := by
    have := hrange ⟨a, ha⟩
    rw [hl] at this
    exact this
  have hla : (getVoice s l).linked_voice = some a := hsymm ⟨a, ha⟩ ⟨l, hl48⟩ hl
  have hget := unlink_pair_apply_linked s a l ha'
  refine ⟨?_, ?_, ?_⟩
  · simp only [ansnd_unlink_pair_apply, length_setVoice]
    exact hlen
  · intro i
    rw [hget]
    by_cases hil : i.1 = l
    · simp [hil]
    · rw [if_neg hil]
      by_cases hia : i.1 = a
      · simp [hia]
      · rw [if_neg hia]
        exact hrange i
  · intro i j hij
    rw [hget] at hij
    rw [hget]
    by_cases hil : i.1 = l
    · rw [if_pos hil] at hij
      exact Option.noConfusion hij
    · rw [if_neg hil] at hij
      by_cases hia : i.1 = a
      · rw [if_pos hia] at hij
        exact Option.noConfusion hij
      · rw [if_neg hia] at hij
        have hjl : j.1 ≠ l := by
          intro hjl
          have h2 := hsymm i j hij
          rw [hjl, hla] at h2
          exact hia (Option.some_injective _ h2.symm)
        have hja : j.1 ≠ a := by
          intro hja
          have h2 := hsymm i j hij
          rw [hja, hl] at h2
          exact hil (Option.some_injective _ h2.symm)
        rw [if_neg hjl, if_neg hja]
        exact hsymm i j hij

theorem linked_wf_deallocate_apply (s : AnsndState) (voice_id : Nat) (h : linked_wf s)
    (hid : voice_id < 48) : linked_wf (ansnd_deallocate_apply s voice_id) := by
  have hlen : s.voices.length = 48 := h.1
  cases hlv : (getVoice s voice_id).linked_voice with
  | none =>
    simp only [ansnd_deallocate_apply, hlv]
    apply linked_wf_of_linked_pointwise s _ (length_setVoice _ _ _) ?_ h
    exact getVoice_setVoice_linked_eq _ _ _ hlv.symm
  | some l =>
    simp only [ansnd_deallocate_apply, hlv]
    apply linked_wf_unlink_pair _ _ _ ?_ hid ?_
    · apply linked_wf_of_linked_pointwise s _ (length_setVoice _ _ _) ?_ h
      exact getVoice_setVoice_linked_eq _ _ _ hlv.symm
    · rw [getVoice_setVoice_self _ _ _ (by omega)]

theorem linked_wf_configure_pcm_apply (s : AnsndState) (voice_id : Nat)
    (cfg : ansnd_pcm_voice_config_t) (h : linked_wf s) :
    linked_wf (ansnd_configure_pcm_apply s voice_id cfg) := by
  apply linked_wf_of_linked_pointwise s _ ?_ ?_ h
  · simp only [ansnd_configure_pcm_apply, length_setVoice]
  · intro j
    simp only [ansnd_configure_pcm_apply]
    apply getVoice_setVoice_linked_eq
    split_ifs <;> rfl

theorem linked_wf_configure_adpcm_apply (s : AnsndState) (voice_id : Nat)
    (cfg : ansnd_adpcm_voice_config_t) (son sln len eon : Nat) (h : linked_wf s) :
    linked_wf (ansnd_configure_adpcm_apply s voice_id cfg son sln len eon) := by
  apply linked_wf_of_linked_pointwise s _ ?_ ?_ h
  · simp only [ansnd_configure_adpcm_apply, length_setVoice]
  · intro j
    simp only [ansnd_configure_adpcm_apply]
    apply getVoice_setVoice_linked_eq
    split_ifs <;> rfl

/-- Claim C3: the linked_voice relation stays well-formed — symmetric,
in-range, never grouping more than two voices — under link, unlink,
configure (PCM and ADPCM) and deallocate; no two distinct voices ever
link to the same third voice; after a successful link(A,B), a successful
start(A) leaves B with its RUNNING flag set; and after a successful
unlink(A), starting A changes no voice other than A. -/
theorem linked_voice_symmetry :
    (∀ (s : AnsndState) (a b : Nat), linked_wf s → linked_wf (ansnd_link_voices s a b).2) ∧
    (∀ (s : AnsndState) (a : Nat), linked_wf s → linked_wf (ansnd_unlink_voice s a).2) ∧
    (∀ (s : AnsndState) (a : Nat) (cfg : ansnd_pcm_voice_config_t), linked_wf s →
       linked_wf (ansnd_configure_pcm_voice s a cfg).2) ∧
    (∀ (s : AnsndState) (a : Nat) (cfg : ansnd_adpcm_voice_config_t), linked_wf s →
       linked_wf (ansnd_configure_adpcm_voice s a cfg).2) ∧
    (∀ (s : AnsndState) (a : Nat), linked_wf s → linked_wf (ansnd_deallocate_voice s a).2) ∧
    (∀ (s : AnsndState) (i j k : Fin 48), linked_wf s →
       (getVoice s i.1).linked_voice = some k.1 →
       (getVoice s j.1).linked_voice = some k.1 → i = j) ∧
    (∀ (s : AnsndState) (a b : Nat), linked_wf s →
       (ansnd_link_voices s a b).1 = ANSND_ERROR_OK →
       (ansnd_start_voice (ansnd_link_voices s a b).2 a).1 = ANSND_ERROR_OK →
       (getVoice (ansnd_start_voice (ansnd_link_voices s a b).2 a).2 b).flags &&&
         VOICE_FLAG_RUNNING ≠ 0) ∧
    (∀ (s : AnsndState) (a : Nat),
       (ansnd_unlink_voice s a).1 = ANSND_ERROR_OK →
       ∀ c : Nat, c ≠ a →
         getVoice (ansnd_start_voice (ansnd_unlink_voice s a).2 a).2 c =
           getVoice (ansnd_unlink_voice s a).2 c) := by
  refine ⟨?_, ?_, ?_, ?_, ?_, ?_, ?_, ?_⟩
  · intro s a b h
    rcases ansnd_link_voices_spec s a b with ⟨heq, hne, ha, hb, _, _, la, lb⟩ | ⟨h2, _⟩
    · rw [heq]
      exact linked_wf_link_apply s a b h ha hb hne la lb
    · rw [h2]
      exact h
  · intro s a h
    rcases ansnd_unlink_voice_spec s a with ⟨⟨l, hl, heq⟩, ha, _⟩ | ⟨h2, _⟩
    · rw [heq]
      exact linked_wf_unlink_pair s a l h ha hl
    · rw [h2]
      exact h
  · intro s a cfg h
    rcases ansnd_configure_pcm_voice_spec s a cfg with ⟨heq, _, _⟩ | ⟨h2, _⟩
    · rw [heq]
      exact linked_wf_configure_pcm_apply s a cfg h
    · rw [h2]
      exact h
  · intro s a cfg h
    rcases ansnd_configure_adpcm_voice_spec s a cfg with ⟨heq, _, _⟩ | ⟨h2, _⟩
    · rw [heq]
      exact linked_wf_configure_adpcm_apply s a cfg _ _ _ _ h
    · rw [h2]
      exact h
  · intro s a h
    rcases ansnd_deallocate_voice_spec s a with ⟨heq, hid, _⟩ | ⟨h2, _⟩
    · rw [heq]
      exact linked_wf_deallocate_apply s a h hid
    · rw [h2]
      exact h
  · intro s i j k h hi hj
    obtain ⟨_, _, hsymm⟩ := h
    have h1 := hsymm i k hi
    have h2 := hsymm j k hj
    exact Fin.ext (Option.some_injective _ (h1.symm.trans h2))
  · intro s a b h hres hstart
    rcases ansnd_link_voices_spec s a b with ⟨heq, hne, ha, hb, _, _, la, lb⟩ | ⟨_, hne2⟩
    · have hT : (ansnd_link_voices s a b).2 = ansnd_link_apply s a b := by rw [heq]
      rw [hT] at hstart ⊢
      have hlen : s.voices.length = 48 := h.1
      have hlenT : (ansnd_link_apply s a b).voices.length = s.voices.length := by
        simp only [ansnd_link_apply, length_setVoice]
      have hta : (getVoice (ansnd_link_apply s a b) a).linked_voice = some b := by
        rw [link_apply_linked s a b (by omega) (by omega)]
        rw [if_neg hne, if_pos rfl]
      rcases ansnd_start_voice_spec (ansnd_link_apply s a b) a with ⟨heq2, _⟩ | ⟨_, hne3⟩
      · rw [heq2]
        simp only [ansnd_start_apply, hta]
        rw [getVoice_setVoice_self _ _ _ (by rw [length_setVoice, hlenT]; omega)]
        exact ansnd_start_flags_running _
      · exact absurd hstart hne3
    · exact absurd hres hne2
  · intro s a hres c hc
    rcases ansnd_unlink_voice_spec s a with ⟨⟨l, hl, heq⟩, ha, hused⟩ | ⟨_, hne⟩
    · have hT : (ansnd_unlink_voice s a).2 = ansnd_unlink_pair_apply s a l := by rw [heq]
      rw [hT]
      have halen : a < s.voices.length := lt_length_of_used s a hused
      have hta : (getVoice (ansnd_unlink_pair_apply s a l) a).linked_voice = none := by
        rw [unlink_pair_apply_linked s a l halen]
        by_cases hal : a = l
        · rw [if_pos hal]
        · rw [if_neg hal, if_pos rfl]
      rcases ansnd_start_voice_spec (ansnd_unlink_pair_apply s a l) a with ⟨heq2, _⟩ | ⟨hst2, _⟩
      · rw [heq2]
        simp only [ansnd_start_apply, hta]
        exact getVoice_setVoice_ne _ _ _ _ (Ne.symm hc)
      · rw [hst2]
    · exact absurd hres hne

/-- Witness for C3: a fresh library with two allocated voices satisfies
linked_wf, and linking them preserves it. -/
theorem linked_voice_symmetry_witness :
    linked_wf twoAllocated ∧ linked_wf (ansnd_link_voices twoAllocated 0 1).2 :=
  ⟨by decide, linked_voice_symmetry.1 twoAllocated 0 1 (by decide)⟩
end AnsndVerification
